import Mathlib

/-!
Verification development for the Explore-Sri-Lanka retrieval-to-itinerary
pipeline.  The Python sources embedded here are:

* `backend/services/coordinate_service.py` — gazetteer lookup
  (`CoordinateService.get_coordinates`, `_fuzzy_search_coordinates`,
  `enrich_attraction_with_coordinates`);
* `backend/langgraph_flow/models/pear_ranker.py` —
  `PEARRanker.get_recommendations_from_vector_db`;
* `backend/router/clustered_recommendations.py` — the candidate-preparation
  loop of `get_clustered_travel_plan` (lines 136-160);
* `backend/langgraph_flow/models/geo_clustering.py` — `GeoCluster`,
  `OpenStreetMapRouter.get_route_info`, `AdvancedGeographicClusterer`
  (`create_balanced_clusters`, `_weighted_clustering`,
  `_optimize_cluster_balance`, `_split_cluster`, `_optimize_visiting_order`,
  `_solve_tsp_greedy`, `_find_best_cluster_for_attraction`,
  `_can_add_to_cluster`, `_create_cluster`), and `haversine_distance`.

Modelling conventions.  Python floats are modelled by `ℚ` throughout the
pipeline (the arithmetic performed is +, -, *, /, max, comparisons, all exact
on the rational test data used below); the one genuinely transcendental
function, `haversine_distance`, is modelled two ways: once faithfully over `ℝ`
(`haversine_distance`, used for the route-fallback claim), and as an explicit
function parameter `hav : Hav` threaded through the clustering pipeline
(every place the Python calls `haversine_distance` applies `hav`).  Distances
obtained through `OpenStreetMapRouter.get_route_info` (which equal the
haversine value when no API key is configured, and the provider's answer
otherwise) are a second parameter `rd : Hav`.  `sklearn.KMeans` is an opaque
external dependency: its output labelling is a parameter `labels : List ℕ` of
`create_balanced_clusters`; of the similarity-matrix computation that feeds
it, the model reproduces its failure mode — the
`distance_matrix[i][j] / np.max(distance_matrix)` normalisation produces
NaN/inf whenever the matrix maximum is zero, on which `KMeans.fit_predict`
raises `ValueError` — while the finite matrix itself, consumed only by
KMeans, is not reproduced.  `fuzzywuzzy.fuzz.partial_ratio` is an opaque
integer scoring function parameter `pr`.  Python dicts with a fixed key set
are records; the extra keys an attraction dict may carry are an opaque
association list `rest`, which lets frame conditions be stated.
-/

/-- Type of the distance oracles: `hav lat1 lng1 lat2 lng2` stands for
`haversine_distance(lat1, lng1, lat2, lng2)` (or for the router-provided
driving distance when used as the `rd` parameter). -/
abbrev Hav : Type := ℚ → ℚ → ℚ → ℚ → ℚ

/-- An attraction dict as built by `get_clustered_travel_plan` (lines
142-150) and consumed by `enrich_attraction_with_coordinates` and the
clusterer.  `name` is `Option` because `enrich_attraction_with_coordinates`
reads it with `enhanced.get('name', '')`; `latitude`, `longitude`,
`coordinate_source` are `Option` because those keys may be absent (absent and
present-as-`None` both map to `none`, which is exactly how the code tests
them: `enhanced.get('latitude') is not None`).  `rest` carries any further
keys of the dict, untouched by the functions modelled here. -/
structure AttrDict where
  id : String := ""
  name : Option String := none
  category : String := "Unknown"
  description : String := ""
  region : String := "Unknown"
  pear_score : ℚ := 0
  visit_duration_minutes : ℚ := 120
  latitude : Option ℚ := none
  longitude : Option ℚ := none
  coordinate_source : Option String := none
  rest : List (String × String) := []
deriving DecidableEq

/-- The gazetteer `name_to_coords`: an insertion-ordered map from lowercased
canonical name to `(latitude, longitude)`, as built by
`CoordinateService._load_locations_data`.  Python dict keys are unique;
iteration order is insertion order, which the list order models. -/
abbrev Gazetteer : Type := List (String × ℚ × ℚ)

/-- Dict lookup `self.name_to_coords.get(key)` on the (key-unique) gazetteer. -/
def gazGet (gaz : Gazetteer) (key : String) : Option (ℚ × ℚ) :=
  (gaz.find? (fun e => e.1 == key)).map (fun e => e.2)

/-- `CoordinateService._fuzzy_search_coordinates(attraction_name, threshold)`
(coordinate_service.py lines 97-122): scan the stored names accumulating
`(best_score, best_match)`, updating when `score > best_score and
score >= threshold`; `pr` models `fuzz.partial_ratio` and is applied to the
lowercased query and the (already lowercase) stored name. -/
def fuzzy_search_coordinates (pr : String → String → ℕ) (gaz : Gazetteer)
    (attraction_name : String) (threshold : ℕ) : Option (ℚ × ℚ) :=
  (gaz.foldl
    (fun (acc : ℕ × Option (ℚ × ℚ)) e =>
      let score := pr attraction_name.toLower e.1
      if acc.1 < score ∧ threshold ≤ score then (score, some e.2) else acc)
    (0, none)).2

/-- `CoordinateService.get_coordinates(attraction_name)` (lines 71-95):
`None` for a falsy (empty) name; else the case-insensitive exact match if
present (a coordinate pair is always truthy in Python); else the fuzzy search
with its default threshold 80. -/
def get_coordinates (pr : String → String → ℕ) (gaz : Gazetteer)
    (attraction_name : String) : Option (ℚ × ℚ) :=
  if attraction_name = "" then none
  else
    match gazGet gaz attraction_name.toLower with
    | some c => some c
    | none => fuzzy_search_coordinates pr gaz attraction_name 80

/-- `enrich_attraction_with_coordinates(attraction_data)`
(coordinate_service.py lines 230-259).  A dict that already has both
coordinates is returned as-is; otherwise the gazetteer is consulted with the
dict's name (default `''`), and on a miss the fixed island-centre fallback
`(7.8731, 80.7718)` is written with `coordinate_source = 'fallback_center'`. -/
def enrich_attraction_with_coordinates (pr : String → String → ℕ)
    (gaz : Gazetteer) (a : AttrDict) : AttrDict :=
  if a.latitude.isSome ∧ a.longitude.isSome then a
  else
    match get_coordinates pr gaz (a.name.getD "") with
    | some c =>
        { a with latitude := some c.1, longitude := some c.2,
                 coordinate_source := some "sri_lanka_locations_db" }
    | none =>
        { a with latitude := some (78731/10000), longitude := some (807718/10000),
                 coordinate_source := some "fallback_center" }

/-- The payload stored with a vector hit (the fields the planner reads). -/
structure Payload where
  name : Option String := none
  category : Option String := none
  description : Option String := none
  region : Option String := none
  visit_duration_minutes : Option ℚ := none
deriving DecidableEq

/-- One hit from `qdrant_client.search`: id, optional payload, the stored
vector (an opaque type `V`), and the similarity score. -/
structure VHit (V : Type) where
  id : String
  payload : Option Payload
  vector : V
  score : ℚ
deriving DecidableEq

/-- A `place_info` record as assembled by
`PEARRanker.get_recommendations_from_vector_db` (pear_ranker.py lines
383-393). -/
structure PlaceRec (V : Type) where
  id : String
  payload : Option Payload
  neural_score : ℚ
  similarity_score : ℚ
  pear_score : ℚ
  name : String
  category : String
  description : String
  region : String
deriving DecidableEq

/-- The `place_info` dict built for one search hit, given its neural score
`ns` (pear_ranker.py lines 383-393): in particular
`pear_score = neural_score * 0.7 + result.score * 0.3`, with no clipping. -/
def mkPlaceRec (V : Type) (h : VHit V) (ns : ℚ) : PlaceRec V :=
  { id := h.id
    payload := h.payload
    neural_score := ns
    similarity_score := h.score
    pear_score := ns * (7/10) + h.score * (3/10)
    name := match h.payload with
            | some p => p.name.getD "Unknown"
            | none => "Unknown"
    category := match h.payload with
                | some p => p.category.getD "Unknown"
                | none => "Unknown"
    description := match h.payload with
                   | some p => p.description.getD ""
                   | none => ""
    region := match h.payload with
              | some p => p.region.getD "Unknown"
              | none => "Unknown" }

/-- The scoring loop of `get_recommendations_from_vector_db` (pear_ranker.py
lines 369-395): each hit in order is scored by the neural ranker and turned
into a `place_info` record.  There is no per-hit exception handler, so a
raising `neural` call aborts the whole loop with its error. -/
def scoreHits (V E : Type) (neural : V → V → V → Except E ℚ) (qv cv : V) :
    List (VHit V) → Except E (List (PlaceRec V))
  | [] => Except.ok []
  | h :: t => do
      let ns ← neural qv cv h.vector
      let rest ← scoreHits V E neural qv cv t
      Except.ok (mkPlaceRec V h ns :: rest)

/-- The body of the `try:` block of
`PEARRanker.get_recommendations_from_vector_db` (pear_ranker.py lines
341-401), with the process-external dependencies as oracles that either
return a value or raise (`Except E`): `embed` is
`self.embedding_model.encode`, `search` is `self.qdrant_client.search`,
`neural` is the neural ranker applied to (query, context, place) embeddings.
An empty hit list returns `[]`; otherwise every hit is scored, the records
are sorted by `pear_score` descending (Python's stable sort) and the first
`top_k` are returned. -/
def getRecsCore (V E : Type) (embed : String → Except E V)
    (search : V → Except E (List (VHit V)))
    (neural : V → V → V → Except E ℚ)
    (user_query : String) (context_text : String) (top_k : ℕ) :
    Except E (List (PlaceRec V)) := do
  let qv ← embed user_query
  let hits ← search qv
  match hits with
  | [] => return []
  | _ :: _ =>
    let cv ← embed context_text
    let ranked ← scoreHits V E neural qv cv hits
    return (List.insertionSort (fun a b => b.pear_score ≤ a.pear_score) ranked).take top_k

/-- `PEARRanker.get_recommendations_from_vector_db` (pear_ranker.py lines
330-405): the whole body sits in `try: ... except Exception: return []`, so
any exception from the embedder, the index or the per-hit scoring yields the
ordinary value `[]`. -/
def get_recommendations_from_vector_db (V E : Type) (embed : String → Except E V)
    (search : V → Except E (List (VHit V)))
    (neural : V → V → V → Except E ℚ)
    (user_query : String) (context_text : String) (top_k : ℕ) :
    List (PlaceRec V) :=
  match getRecsCore V E embed search neural user_query context_text top_k with
  | Except.ok r => r
  | Except.error _ => []

/-- The attraction dict the planner builds from one recommendation
(clustered_recommendations.py lines 141-150).  `rec.get('payload', {})` is
modelled by `getD {}`; a recommendation whose payload is `None` would raise
`AttributeError` in Python (crashing the request), so theorems about this
function assume `payload.isSome`. -/
def recToAttraction (V : Type) (rec : PlaceRec V) : AttrDict :=
  let payload := rec.payload.getD {}
  { id := rec.id
    name := some (payload.name.getD "Unknown")
    category := payload.category.getD "Unknown"
    description := payload.description.getD ""
    region := payload.region.getD "Unknown"
    pear_score := rec.pear_score
    visit_duration_minutes := payload.visit_duration_minutes.getD 120
    latitude := none
    longitude := none
    coordinate_source := none
    rest := [] }

/-- The candidate-preparation loop of `get_clustered_travel_plan`
(clustered_recommendations.py lines 138-160): build the dict, enrich it with
coordinates, and append it only when both coordinates are non-`None`. -/
def prepareForClustering (V : Type) (pr : String → String → ℕ) (gaz : Gazetteer)
    (top_attractions : List (PlaceRec V)) : List AttrDict :=
  top_attractions.foldl
    (fun acc rec =>
      let attraction := enrich_attraction_with_coordinates pr gaz (recToAttraction V rec)
      if attraction.latitude.isSome ∧ attraction.longitude.isSome then
        acc ++ [attraction]
      else acc)
    []

/-- The `GeoCluster` dataclass (geo_clustering.py lines 39-53) with its
Python field defaults (in particular `is_balanced = True`). -/
structure GeoCluster where
  cluster_id : ℕ
  center_lat : ℚ := 0
  center_lng : ℚ := 0
  attractions : List AttrDict := []
  total_pear_score : ℚ := 0
  estimated_time_hours : ℚ := 0
  total_travel_time_minutes : ℚ := 0
  value_per_hour : ℚ := 0
  region_name : Option String := none
  max_travel_distance_km : ℚ := 0
  is_balanced : Bool := true
  optimal_order : Option (List ℕ) := none
deriving DecidableEq

instance : Inhabited GeoCluster := ⟨{ cluster_id := 0 }⟩

/-- The `AdvancedGeographicClusterer` constructor parameters used by the
functions modelled here (geo_clustering.py lines 221-232), with their Python
defaults.  `max_daily_travel_time_hours` and `target_clusters` are omitted:
the former is never read by the modelled code paths, the latter only feeds
the opaque KMeans call. -/
structure ClustererConfig where
  max_cluster_radius_km : ℚ := 30
  min_attractions_per_cluster : ℕ := 2
  max_attractions_per_cluster : ℕ := 6
deriving DecidableEq

/-- Distance between two attraction dicts:
`haversine_distance(a.get('latitude', 0), a.get('longitude', 0), ...)`. -/
def havOf (hav : Hav) (a b : AttrDict) : ℚ :=
  hav (a.latitude.getD 0) (a.longitude.getD 0) (b.latitude.getD 0) (b.longitude.getD 0)

/-- All unordered pairs `(l[i], l[j])` with `i < j`, in the iteration order of
the nested loop `for i, attr1 in enumerate(...): for attr2 in self.attractions[i+1:]`. -/
def allPairs {α : Type} : List α → List (α × α)
  | [] => []
  | a :: t => t.map (fun b => (a, b)) ++ allPairs t

/-- Sum of `attraction.get('visit_duration_minutes', 120)` over a cluster
(the key is always present on dicts built by the planner, with default 120
applied at construction). -/
def sumVisit (attrs : List AttrDict) : ℚ :=
  attrs.foldl (fun s a => s + a.visit_duration_minutes) 0

/-- Sum of `attr.get('pear_score', 0)` over a cluster. -/
def sumPear (attrs : List AttrDict) : ℚ :=
  attrs.foldl (fun s a => s + a.pear_score) 0

/-- `GeoCluster._calculate_travel_metrics` (lines 93-119), returning the pair
`(max_travel_distance_km, total_travel_time_minutes)`: at most one attraction
gives `(0, 0)`; otherwise the maximum and the sum of the pairwise haversine
distances are accumulated and the travel time is
`(total / max(count, 1) / 40) * 60 * (len - 1)` — the average-pairwise
formula, not a tour length. -/
def calc_travel_metrics (hav : Hav) (attrs : List AttrDict) : ℚ × ℚ :=
  if attrs.length ≤ 1 then (0, 0)
  else
    let ds := (allPairs attrs).map (fun p => havOf hav p.1 p.2)
    let maxd := ds.foldl max 0
    let total := ds.foldl (fun s d => s + d) 0
    let cnt : ℚ := max (ds.length : ℚ) 1
    (maxd, total / cnt / 40 * 60 * ((attrs.length : ℚ) - 1))

/-- `GeoCluster._check_balance` (lines 121-134): the size bounds are the
hard-coded literals 2 and 6, and the time bound is the literal 14. -/
def check_balance (maxd est : ℚ) (n : ℕ) (vph : ℚ) : Bool :=
  decide (maxd ≤ 50 ∧ est ≤ 14 ∧ 2 ≤ n ∧ n ≤ 6 ∧ 1/10 < vph)

/-- `GeoCluster._recalculate_metrics` (lines 70-76), preserving the Python
statement order: `estimated_time_hours` is computed from the *incoming*
`total_travel_time_minutes` (`_estimate_total_time` reads
`self.total_travel_time_minutes` before `_calculate_travel_metrics` runs),
after which `_calculate_travel_metrics` overwrites
`total_travel_time_minutes` and `max_travel_distance_km`, and
`_check_balance` sets the flag from the updated fields. -/
def recalculate_metrics (hav : Hav) (c : GeoCluster) : GeoCluster :=
  let tp := sumPear c.attractions
  let est := match c.attractions with
             | [] => 0
             | _ :: _ => (sumVisit c.attractions + c.total_travel_time_minutes) / 60
  let vph := tp / max est (1/10)
  let m := calc_travel_metrics hav c.attractions
  { c with total_pear_score := tp
           estimated_time_hours := est
           value_per_hour := vph
           max_travel_distance_km := m.1
           total_travel_time_minutes := m.2
           is_balanced := check_balance m.1 est c.attractions.length vph }

/-- `GeoCluster._recalculate_center` (lines 62-68). -/
def recalculate_center (c : GeoCluster) : GeoCluster :=
  match c.attractions with
  | [] => c
  | _ :: _ =>
    { c with
        center_lat := (c.attractions.foldl (fun s a => s + a.latitude.getD 0) 0) /
          (c.attractions.length : ℚ)
        center_lng := (c.attractions.foldl (fun s a => s + a.longitude.getD 0) 0) /
          (c.attractions.length : ℚ) }

/-- `GeoCluster.add_attraction` (lines 55-60): append, bump the score, then
recalculate center and metrics. -/
def add_attraction (hav : Hav) (c : GeoCluster) (a : AttrDict) : GeoCluster :=
  recalculate_metrics hav (recalculate_center
    { c with attractions := c.attractions ++ [a]
             total_pear_score := c.total_pear_score + a.pear_score })

/-- `AdvancedGeographicClusterer._get_region_name` (lines 625-644). -/
def get_region_name (lat lng : ℚ) : String :=
  if 9 < lat then "Northern Province"
  else if 8 < lat ∧ lng < 80 then "North Western Province"
  else if 15/2 < lat ∧ lng < 161/2 then "Western Province"
  else if 15/2 < lat ∧ 81 < lng then "Eastern Province"
  else if 34/5 < lat ∧ 401/5 < lng ∧ lng < 406/5 then "Central Province"
  else if 6 < lat ∧ lng < 161/2 then "Southern Province"
  else if 81 < lng then "Uva Province"
  else "Sabaragamuwa Province"

/-- `AdvancedGeographicClusterer._create_cluster` (lines 593-615): an empty
list yields the bare dataclass (all defaults, `is_balanced = True`);
otherwise the mean center, the region name, and a full metric
recalculation. -/
def create_cluster (hav : Hav) (cluster_id : ℕ) (attrs : List AttrDict) : GeoCluster :=
  match attrs with
  | [] => { cluster_id := cluster_id }
  | _ :: _ =>
    let clat := (attrs.foldl (fun s a => s + a.latitude.getD 0) 0) / (attrs.length : ℚ)
    let clng := (attrs.foldl (fun s a => s + a.longitude.getD 0) 0) / (attrs.length : ℚ)
    recalculate_metrics hav
      { cluster_id := cluster_id
        center_lat := clat
        center_lng := clng
        attractions := attrs
        region_name := some (get_region_name clat clng) }

/-- `AdvancedGeographicClusterer._create_single_cluster` (lines 617-623). -/
def create_single_cluster (hav : Hav) (attrs : List AttrDict) : List GeoCluster :=
  match attrs with
  | [] => []
  | _ :: _ => [create_cluster hav 0 attrs]

/-- Elements `l[i], l[i+ns], l[i+2*ns], …` of `l`, i.e. Python's
`l[i::ns]` once `l` has already been dropped to start at `i`
(so `everyNth (l.drop i) ns` is `for j in range(i, len(l), ns)`). -/
def everyNth {α : Type} : List α → ℕ → List α
  | [], _ => []
  | a :: t, ns => a :: everyNth (t.drop (ns - 1)) ns
termination_by l _ => l.length
decreasing_by
  simp only [List.length_drop, List.length_cons]
  omega

/-- `AdvancedGeographicClusterer._split_cluster` (lines 443-463): sort the
members by `pear_score` descending (Python's stable sort), distribute them
round-robin into `⌈size / MAX⌉` groups, and build a cluster from each
non-empty group, ids counting from 0. -/
def split_cluster (hav : Hav) (cfg : ClustererConfig) (c : GeoCluster) : List GeoCluster :=
  let attrs := c.attractions
  let n_splits := (attrs.length + cfg.max_attractions_per_cluster - 1) /
    cfg.max_attractions_per_cluster
  let sorted := List.insertionSort (fun a b => b.pear_score ≤ a.pear_score) attrs
  (List.range n_splits).foldl
    (fun acc i =>
      match everyNth (sorted.drop i) n_splits with
      | [] => acc
      | b :: bs => acc ++ [create_cluster hav acc.length (b :: bs)])
    []

/-- `AdvancedGeographicClusterer._find_best_cluster_for_attraction` (lines
465-498), returning the *position* of the chosen cluster in the list (the
Python function returns the object itself, which the caller then mutates in
place; position-passing models that).  Clusters at capacity or farther than
the radius from the attraction are skipped; among the rest the first cluster
maximising `1/(1+dist) + 0.3 * value_per_hour` wins (strict improvement, so
ties keep the earlier cluster; `best_score` starts at `-inf`, so the first
eligible cluster always replaces the empty accumulator). -/
def find_best_cluster_for_attraction (hav : Hav) (cfg : ClustererConfig)
    (a : AttrDict) (clusters : List GeoCluster) : Option ℕ :=
  (clusters.enum.foldl
    (fun (acc : Option (ℚ × ℕ)) ic =>
      let c := ic.2
      if cfg.max_attractions_per_cluster ≤ c.attractions.length then acc
      else
        let d := hav (a.latitude.getD 0) (a.longitude.getD 0) c.center_lat c.center_lng
        if cfg.max_cluster_radius_km < d then acc
        else
          let combined := 1 / (1 + d) + (3/10) * c.value_per_hour
          match acc with
          | none => some (combined, ic.1)
          | some best => if best.1 < combined then some (combined, ic.1) else acc)
    none).map (fun best => best.2)

/-- `AdvancedGeographicClusterer._can_add_to_cluster` (lines 500-524). -/
def can_add_to_cluster (hav : Hav) (cfg : ClustererConfig) (a : AttrDict)
    (c : GeoCluster) : Bool :=
  if cfg.max_attractions_per_cluster ≤ c.attractions.length then false
  else
    let d := hav (a.latitude.getD 0) (a.longitude.getD 0) c.center_lat c.center_lng
    if cfg.max_cluster_radius_km < d then false
    else
      let m := c.attractions.foldl (fun acc e => max acc (havOf hav a e)) d
      decide (m ≤ cfg.max_cluster_radius_km)

/-- First pass of `AdvancedGeographicClusterer._optimize_cluster_balance`
(lines 358-375): balanced clusters are kept; unbalanced oversize clusters are
split; unbalanced over-radius clusters dissolve into the redistribution pool;
anything else is kept as-is (including singletons). -/
def balancePhase1 (hav : Hav) (cfg : ClustererConfig) (clusters : List GeoCluster) :
    List GeoCluster × List AttrDict :=
  clusters.foldl
    (fun acc c =>
      if c.is_balanced then (acc.1 ++ [c], acc.2)
      else if cfg.max_attractions_per_cluster < c.attractions.length then
        (acc.1 ++ split_cluster hav cfg c, acc.2)
      else if cfg.max_cluster_radius_km < c.max_travel_distance_km then
        (acc.1, acc.2 ++ c.attractions)
      else (acc.1 ++ [c], acc.2))
    ([], [])

/-- One iteration of the redistribution loop of `_optimize_cluster_balance`
(lines 378-387): mutate the chosen admissible cluster in place, or append a
fresh singleton cluster whose id is the current list length. -/
def redistributeStep (hav : Hav) (cfg : ClustererConfig)
    (bal : List GeoCluster) (a : AttrDict) : List GeoCluster :=
  match find_best_cluster_for_attraction hav cfg a bal with
  | some i =>
      if can_add_to_cluster hav cfg a (bal.getD i default) then
        bal.set i (add_attraction hav (bal.getD i default) a)
      else bal ++ [create_cluster hav bal.length [a]]
  | none => bal ++ [create_cluster hav bal.length [a]]

/-- `AdvancedGeographicClusterer._optimize_cluster_balance` (lines 355-389). -/
def optimize_cluster_balance (hav : Hav) (cfg : ClustererConfig)
    (clusters : List GeoCluster) : List GeoCluster :=
  let p := balancePhase1 hav cfg clusters
  p.2.foldl (redistributeStep hav cfg) p.1

/-- The symmetric distance matrix built by
`OpenStreetMapRouter.get_distance_matrix` (lines 195-211): zero diagonal,
entry `(i, j)` (for `i < j`) the router distance between locations `i` and
`j`, mirrored to `(j, i)`.  `rd` stands for the distance component of
`get_route_info` (equal to the haversine value when no API key is
configured). -/
def distance_matrix (rd : Hav) (locs : List (ℚ × ℚ)) : ℕ → ℕ → ℚ :=
  fun i j =>
    if i = j then 0
    else
      let p := locs.getD (min i j) (0, 0)
      let q := locs.getD (max i j) (0, 0)
      rd p.1 p.2 q.1 q.2

/-- `min(unvisited, key=lambda x: distance_matrix[current][x])` over the
ascending list of unvisited indices: the fold keeps the earlier element on
ties (strict `<`), so the lowest index among the minimisers wins, which is
CPython's behaviour for `min` over a small-integer set (ascending iteration
for the index ranges arising here). -/
def selectNearest (D : ℕ → ℕ → ℚ) (current : ℕ) (unvisited : List ℕ) : Option ℕ :=
  unvisited.foldl
    (fun acc x =>
      match acc with
      | none => some x
      | some b => if D current x < D current b then some x else acc)
    none

/-- The `while unvisited:` loop of `_solve_tsp_greedy` (lines 435-439), with
fuel equal to the number of unvisited indices (each iteration removes exactly
one element, so the fuel is exact). -/
def tspGo (D : ℕ → ℕ → ℚ) : ℕ → ℕ → List ℕ → List ℕ
  | 0, _, _ => []
  | fuel + 1, current, unvisited =>
    match selectNearest D current unvisited with
    | none => []
    | some m => m :: tspGo D fuel m (unvisited.erase m)

/-- `AdvancedGeographicClusterer._solve_tsp_greedy` (lines 424-441): identity
order for `n ≤ 2`, otherwise the greedy nearest-neighbour open tour started
at index 0 over `unvisited = {1, …, n-1}`. -/
def solve_tsp_greedy (D : ℕ → ℕ → ℚ) (n : ℕ) : List ℕ :=
  if n ≤ 2 then List.range n
  else 0 :: tspGo D (n - 1) 0 ((List.range n).drop 1)

/-- The consecutive-hop total
`sum(distance_matrix[order[i]][order[i+1]] for i in range(len(order)-1))`
(lines 413-415). -/
def tour_distance (D : ℕ → ℕ → ℚ) (tour : List ℕ) : ℚ :=
  match tour with
  | [] => 0
  | _ :: t => (tour.zip t).foldl (fun s p => s + D p.1 p.2) 0

/-- The per-cluster body of
`AdvancedGeographicClusterer._optimize_visiting_order` (lines 396-420).
Clusters of at most two members only get `optimal_order = list(range(n))`.
Larger clusters get the greedy tour, `total_travel_time_minutes` is assigned
the tour length over 40 km/h — and then `_recalculate_metrics()` runs, whose
`_calculate_travel_metrics` overwrites `total_travel_time_minutes` with the
average-pairwise-distance formula (the tour-based value survives only inside
`estimated_time_hours`, which `_estimate_total_time` computed first). -/
def optimize_cluster_order (hav rd : Hav) (c : GeoCluster) : GeoCluster :=
  if c.attractions.length ≤ 2 then
    { c with optimal_order := some (List.range c.attractions.length) }
  else
    let locs := c.attractions.map (fun a => (a.latitude.getD 0, a.longitude.getD 0))
    let D := distance_matrix rd locs
    let tour := solve_tsp_greedy D c.attractions.length
    let td := tour_distance D tour
    recalculate_metrics hav
      { c with optimal_order := some tour
               total_travel_time_minutes := td / 40 * 60 }

/-- `AdvancedGeographicClusterer._optimize_visiting_order` (lines 391-422). -/
def optimize_visiting_order (hav rd : Hav) (clusters : List GeoCluster) : List GeoCluster :=
  clusters.map (optimize_cluster_order hav rd)

/-- Append `a` to the group of label `lab`, creating the group at the end on
first sight of the label — Python dict insertion-order semantics of the
grouping loop in `_weighted_clustering` (lines 341-345). -/
def insertLabel (acc : List (ℕ × List AttrDict)) (lab : ℕ) (a : AttrDict) :
    List (ℕ × List AttrDict) :=
  match acc with
  | [] => [(lab, [a])]
  | g :: t => if g.1 = lab then (g.1, g.2 ++ [a]) :: t else g :: insertLabel t lab a

/-- The grouping of attractions by their KMeans labels (lines 341-345). -/
def groupByLabels (labels : List ℕ) (attrs : List AttrDict) : List (ℕ × List AttrDict) :=
  (labels.zip attrs).foldl (fun acc p => insertLabel acc p.1 p.2) []

/-- `np.max(distance_matrix)` over the full symmetric matrix of
`get_distance_matrix`: its diagonal is zero, so the maximum is the larger of
0 and the maximal pairwise router distance. -/
def matrixMax (rd : Hav) (locs : List (ℚ × ℚ)) : ℚ :=
  ((allPairs locs).map (fun p => rd p.1.1 p.1.2 p.2.1 p.2.2)).foldl max 0

/-- The label-grouping tail of `_weighted_clustering` (lines 340-353): each
label group becomes a cluster whose `cluster_id` is the label itself (the
dict key). -/
def labelledClusters (hav : Hav) (labels : List ℕ) (attrs : List AttrDict) :
    List GeoCluster :=
  (groupByLabels labels attrs).map (fun g => create_cluster hav g.1 g.2)

/-- `AdvancedGeographicClusterer._weighted_clustering` (lines 302-353) with
the KMeans labelling as the opaque parameter `labels`.  The similarity
matrix itself feeds only `KMeans.fit_predict` and is not reproduced — but
its failure mode is: whenever the double loop at lines 312-325 runs (two or
more attractions) with `np.max(distance_matrix) == 0.0` (all router
distances zero), `dist_penalty = 0.0/0.0` is NaN (a non-zero entry over a
zero maximum would give ±inf), and `KMeans.fit_predict` at line 338 then
raises `ValueError` on the non-finite matrix; likewise KMeans raises on an
empty attraction list (zero samples).  Both raises are modelled as
`Except.error`.  Otherwise every `dist_penalty` is finite, KMeans returns
the opaque labelling, and the label groups become clusters. -/
def weighted_clustering (hav rd : Hav) (labels : List ℕ) (attrs : List AttrDict) :
    Except Unit (List GeoCluster) :=
  match attrs with
  | [] => Except.error ()
  | [a] => Except.ok (labelledClusters hav labels [a])
  | a :: b :: rest =>
      if matrixMax rd ((a :: b :: rest).map
          (fun x => (x.latitude.getD 0, x.longitude.getD 0))) = 0 then
        Except.error ()
      else Except.ok (labelledClusters hav labels (a :: b :: rest))

/-- `AdvancedGeographicClusterer.create_balanced_clusters` (lines 235-273)
for the default `algorithm="smart_clustering"`: empty input short-circuits;
the input is truncated to 30; candidates lacking either coordinate are
filtered out; fewer than `MIN_PER_CLUSTER` valid candidates yield the single
(possibly short) cluster; otherwise `_smart_clustering` (lines 275-300) runs
the labelled grouping, the balance pass and the visiting-order pass.  An
exception raised inside (the KMeans `ValueError` of `weighted_clustering`)
propagates out of the clusterer — the planner's catch-all turns it into an
HTTP 500, and no clusters are emitted. -/
def create_balanced_clusters (hav rd : Hav) (cfg : ClustererConfig)
    (labels : List ℕ) (top_attractions : List AttrDict) :
    Except Unit (List GeoCluster) :=
  match top_attractions with
  | [] => Except.ok []
  | _ :: _ =>
    let attractions := top_attractions.take 30
    let valid := attractions.filter (fun a => a.latitude.isSome && a.longitude.isSome)
    if valid.length < cfg.min_attractions_per_cluster then
      Except.ok (create_single_cluster hav valid)
    else
      match weighted_clustering hav rd labels valid with
      | Except.error e => Except.error e
      | Except.ok initial =>
          Except.ok (optimize_visiting_order hav rd
            (optimize_cluster_balance hav cfg initial))

/-- The exact `haversine_distance` of geo_clustering.py lines 894-913 over
`ℝ`: degrees to radians, the haversine formula, earth radius 6371 km. -/
noncomputable def haversine_distance (lat1 lng1 lat2 lng2 : ℝ) : ℝ :=
  let rlat1 := lat1 * (Real.pi / 180)
  let rlng1 := lng1 * (Real.pi / 180)
  let rlat2 := lat2 * (Real.pi / 180)
  let rlng2 := lng2 * (Real.pi / 180)
  let dlat := rlat2 - rlat1
  let dlng := rlng2 - rlng1
  let a := Real.sin (dlat / 2) ^ 2 +
    Real.cos rlat1 * Real.cos rlat2 * Real.sin (dlng / 2) ^ 2
  6371 * (2 * Real.arcsin (Real.sqrt a))

/-- `RouteInfo` (geo_clustering.py lines 23-28) over `ℝ`. -/
structure RouteInfoR where
  distance_km : ℝ
  duration_minutes : ℝ
  route_geometry : Option String := none

/-- `OpenStreetMapRouter.get_route_info` (lines 144-193).  `api_key` models
`os.getenv("OPENROUTE_SERVICE_API_KEY")` (`none` = unset; Python's
`if not self.api_key` also treats the empty string as unset); `ext` is the
opaque network path taken when a key is present (which internally falls back
to haversine on any failure).  Without a key the result is exactly
`RouteInfo(haversine, haversine / 40 * 60)`. -/
noncomputable def get_route_info (api_key : Option String)
    (ext : ℝ × ℝ → ℝ × ℝ → RouteInfoR)
    (start_lat start_lng end_lat end_lng : ℝ) : RouteInfoR :=
  let fallback : RouteInfoR :=
    { distance_km := haversine_distance start_lat start_lng end_lat end_lng
      duration_minutes := haversine_distance start_lat start_lng end_lat end_lng / 40 * 60 }
  match api_key with
  | none => fallback
  | some k => if k = "" then fallback else ext (start_lat, start_lng) (end_lat, end_lng)

/-- The balance predicate exactly as the specification states it (§4.6
"Balanced flag"): the configured size bounds with the `MAX_PER_CLUSTER + 2`
allowance, evaluated on the cluster's stored metric fields. -/
def check_balance_spec (cfg : ClustererConfig) (c : GeoCluster) : Bool :=
  decide (c.max_travel_distance_km ≤ 50 ∧ c.estimated_time_hours ≤ 14 ∧
    cfg.min_attractions_per_cluster ≤ c.attractions.length ∧
    c.attractions.length ≤ cfg.max_attractions_per_cluster + 2 ∧
    1/10 < c.value_per_hour)

/-- The score fusion exactly as the specification states it (§4.4):
`0.7 * neural + 0.3 * similarity`, clipped to `[0, 1]`. -/
def pear_score_spec (neural similarity : ℚ) : ℚ :=
  max 0 (min 1 (7/10 * neural + 3/10 * similarity))

/-- Maximum fuzzy score of a query against all stored names. -/
def maxFuzzScore (pr : String → String → ℕ) (q : String) (gaz : Gazetteer) : ℕ :=
  gaz.foldr (fun e acc => max (pr q.toLower e.1) acc) 0

/-- The gazetteer lookup contract as the claim states it: the case-insensitive
exact match when present; otherwise the first-encountered entry attaining the
maximal fuzzy score, provided that maximum is at least 80; otherwise none. -/
def get_coordinates_spec (pr : String → String → ℕ) (gaz : Gazetteer)
    (nm : String) : Option (ℚ × ℚ) :=
  match gazGet gaz nm.toLower with
  | some c => some c
  | none =>
      let m := maxFuzzScore pr nm gaz
      if 80 ≤ m then (gaz.find? (fun e => pr nm.toLower e.1 == m)).map (fun e => e.2)
      else none

/-- Distance oracle for equator test points (latitude 0), in kilometres:
`111 · |Δlng|`.  The true equatorial haversine distance is
`6371 · (π/180) · |Δlng|` (`haversine_equator` below) and the per-degree
factor `6371 · π/180 = 111.19…` lies in `[111, 112]`
(`haversine_equator_bracket` below), so this oracle is exact on coinciding
points (`haversine_distance_self`) and within 1% elsewhere on the equator —
far inside the margins of every threshold comparison in the concrete traces
below. -/
def eqKmHav : Hav := fun _ lng1 _ lng2 => 111 * |lng1 - lng2|

/-- Distance oracle for test points on the equator (latitude 0): the true
haversine distance there is `6371 * (π/180) * |lng1 - lng2|`
(`haversine_equator` below), so `|lng1 - lng2|` is the equatorial haversine
up to the fixed positive scale factor `6371 * π/180`. -/
def gapHav : Hav := fun _ lng1 _ lng2 => |lng1 - lng2|

/-- Fuzzy scorer stub for tests in which fuzzy matching must not fire. -/
def prZero : String → String → ℕ := fun _ _ => 0

/-- A coordinate-enriched attraction dict for tests (default visit time
120 minutes, as the planner supplies when the payload has none). -/
def testAttr (nm : String) (lat lng pear : ℚ) : AttrDict :=
  { id := nm, name := some nm, pear_score := pear,
    latitude := some lat, longitude := some lng }

/-- A coordinate-enriched attraction dict with an explicit
`visit_duration_minutes` (the payload field the planner forwards). -/
def testAttrV (nm : String) (lat lng pear visit : ℚ) : AttrDict :=
  { id := nm, name := some nm, pear_score := pear,
    visit_duration_minutes := visit,
    latitude := some lat, longitude := some lng }

/-- The clusterer defaults (radius 30, min 2, max 6). -/
def cfgDefault : ClustererConfig := {}

/-- The configuration the planner builds for `max_attractions_per_day = 7`
(clustered_recommendations.py lines 128-134): radius 40, min 2, max 7. -/
def cfgMaxSeven : ClustererConfig :=
  { max_cluster_radius_km := 40, max_attractions_per_cluster := 7 }

/-- Four equator candidates: three at longitude 0 and one at longitude 1/2
(about 55.6 km away) — the distance matrix has a positive maximum, so the
`dist_penalty` normalisation is finite and KMeans runs. -/
def threeNearOne : List AttrDict :=
  [testAttr "a" 0 0 (9/10),
   testAttr "b" 0 0 (9/10),
   testAttr "c" 0 0 (9/10),
   testAttr "d" 0 (1/2) (9/10)]

/-- Seven distinct equator candidates at longitudes `k/100` (`k = 0..6`,
pairwise 1.1–6.7 km apart), each with `pear_score = 1` and a 60-minute
visit duration. -/
def sevenSpread : List AttrDict :=
  [testAttrV "s1" 0 0 1 60,
   testAttrV "s2" 0 (1/100) 1 60,
   testAttrV "s3" 0 (2/100) 1 60,
   testAttrV "s4" 0 (3/100) 1 60,
   testAttrV "s5" 0 (4/100) 1 60,
   testAttrV "s6" 0 (5/100) 1 60,
   testAttrV "s7" 0 (6/100) 1 60]

/-- Three equator candidates at longitudes 0, 1, 2: under `gapHav` the
pairwise distances are 1, 2 and 1. -/
def threeOnLine : List AttrDict :=
  [testAttr "p0" 0 0 (9/10), testAttr "p1" 0 1 (9/10), testAttr "p2" 0 2 (9/10)]

/-- The cluster the clusterer builds from `threeOnLine`. -/
def lineCluster : GeoCluster := create_cluster gapHav 0 threeOnLine

/-- Embedder oracle that succeeds (vectors are opaque, `Unit` here). -/
def okEmbed : String → Except Unit Unit := fun _ => Except.ok ()

/-- A vector hit whose similarity score is -1 (cosine similarity may be
negative). -/
def negHit : VHit Unit :=
  { id := "h1", payload := some { name := some "Lonely Beach" }, vector := (), score := -1 }

/-- Index oracle returning the single hit `negHit`. -/
def searchNeg : Unit → Except Unit (List (VHit Unit)) := fun _ => Except.ok [negHit]

/-- Neural oracle scoring every place 1/10. -/
def lowNeural : Unit → Unit → Unit → Except Unit ℚ := fun _ _ _ => Except.ok (1/10)

/-- Index oracle that raises. -/
def searchRaise : Unit → Except Unit (List (VHit Unit)) := fun _ => Except.error ()

/-- Neural oracle that raises on every candidate. -/
def neuralRaise : Unit → Unit → Unit → Except Unit ℚ := fun _ _ _ => Except.error ()

/-- A vector hit with similarity 1/2. -/
def midHit : VHit Unit :=
  { id := "h2", payload := some { name := some "Nice Fort" }, vector := (), score := 1/2 }

/-- Index oracle returning the single hit `midHit`. -/
def searchMid : Unit → Except Unit (List (VHit Unit)) := fun _ => Except.ok [midHit]

/-- Neural oracle scoring every place 1/2. -/
def midNeural : Unit → Unit → Unit → Except Unit ℚ := fun _ _ _ => Except.ok (1/2)

/-- A retrieved recommendation whose name matches nothing in the gazetteer. -/
def unknownRec : PlaceRec Unit :=
  { id := "r1", payload := some { name := some "Totally Unknown Place" },
    neural_score := 1/2, similarity_score := 1/2, pear_score := 1/2,
    name := "Totally Unknown Place", category := "Unknown",
    description := "", region := "Unknown" }

/-- A one-entry gazetteer (stored key lowercased, as loaded). -/
def gazSigiriya : Gazetteer := [("sigiriya rock fortress", (79568/10000, 807604/10000))]

/-- The full pipeline on `threeNearOne` with the default clusterer
configuration and the KMeans labelling that isolates the distant fourth
candidate.  Here `n_clusters = min(target_clusters, 4 // 2) = 2` for any
trip of at least two days, and on this input the similarity matrix has
exactly two distinct rows (three identical rows for the coincident triple,
one distinct row for the far point), so the only labellings
`KMeans.fit_predict` can return are `[0,0,0,1]` and `[1,1,1,0]` — both are
covered by the counterexample below and give the same cluster sizes. -/
def fourPipeline : Except Unit (List GeoCluster) :=
  create_balanced_clusters eqKmHav eqKmHav cfgDefault [0, 0, 0, 1] threeNearOne

/-- `fourPipeline` with the mirror labelling `[1,1,1,0]`. -/
def fourPipelineB : Except Unit (List GeoCluster) :=
  create_balanced_clusters eqKmHav eqKmHav cfgDefault [1, 1, 1, 0] threeNearOne

/-- The full pipeline on `sevenSpread` with the planner configuration for a
request with `max_attractions_per_day = 7` and `trip_duration_days = 1`
(clustered_recommendations.py lines 128-134): then
`n_clusters = max(1, min(target_clusters = 1, 7 // 2)) = 1`
(geo_clustering.py lines 333-334), so the all-zeros labelling is the only
output `KMeans.fit_predict` can produce. -/
def sevenPipeline : Except Unit (List GeoCluster) :=
  create_balanced_clusters eqKmHav eqKmHav cfgMaxSeven
    (List.replicate 7 0) sevenSpread

/-! ## Supporting lemmas -/

/-- The haversine distance of a point to itself is 0; this pins the
zero distances of the coinciding test points below exactly. -/
theorem haversine_distance_self (lat lng : ℝ) : haversine_distance lat lng lat lng = 0 := by
  simp [haversine_distance]

/-- For `|x| ≤ π/2`, `arcsin √(sin² x) = |x|`. -/
theorem arcsin_sqrt_sin_sq (x : ℝ) (h1 : -(Real.pi/2) ≤ x) (h2 : x ≤ Real.pi/2) :
    Real.arcsin (Real.sqrt (Real.sin x ^ 2)) = |x| := by
  rw [Real.sqrt_sq_eq_abs]
  rcases le_or_lt 0 x with hx | hx
  · rw [abs_of_nonneg (Real.sin_nonneg_of_nonneg_of_le_pi hx
      (le_trans h2 (by linarith [Real.pi_pos])))]
    rw [Real.arcsin_sin h1 h2, abs_of_nonneg hx]
  · have hnx : (0:ℝ) ≤ -x := by linarith
    have hs : (0:ℝ) ≤ Real.sin (-x) :=
      Real.sin_nonneg_of_nonneg_of_le_pi hnx (by linarith [Real.pi_pos])
    rw [Real.sin_neg] at hs
    rw [abs_of_nonpos (by linarith), ← Real.sin_neg,
      Real.arcsin_sin (by linarith) (by linarith), abs_of_neg hx]

/-- On the equator the haversine distance is exactly
`6371 · (π/180) · |Δlng|`: so distances between the `threeOnLine` test points
are proportional to `gapHav`'s values `|lng₁ − lng₂|` with the fixed positive
factor `6371 · π/180`. -/
theorem haversine_equator (l1 l2 : ℝ) (h : |l2 - l1| ≤ 180) :
    haversine_distance 0 l1 0 l2 = 6371 * (Real.pi / 180) * |l2 - l1| := by
  have hpi := Real.pi_pos
  have habs : |l2 * (Real.pi / 180) / 2 - l1 * (Real.pi / 180) / 2| ≤ Real.pi / 2 := by
    have heq : l2 * (Real.pi / 180) / 2 - l1 * (Real.pi / 180) / 2 =
        (l2 - l1) * (Real.pi / 360) := by ring
    rw [heq, abs_mul, abs_of_nonneg (by positivity : (0:ℝ) ≤ Real.pi / 360)]
    rw [abs_le] at h
    nlinarith [abs_nonneg (l2 - l1), abs_le.mpr h]
  have hb := abs_le.mp habs
  simp only [haversine_distance, zero_mul, sub_zero, zero_div, Real.sin_zero,
    Real.cos_zero, one_mul, zero_add, ne_eq, OfNat.ofNat_ne_zero, not_false_eq_true,
    zero_pow, mul_zero]
  rw [show (l2 * (Real.pi/180) - l1 * (Real.pi/180))/2 =
      l2 * (Real.pi/180)/2 - l1 * (Real.pi/180)/2 from by ring]
  rw [arcsin_sqrt_sin_sq _ (by linarith [hb.1]) (by linarith [hb.2])]
  rw [show l2 * (Real.pi/180)/2 - l1 * (Real.pi/180)/2 = (l2 - l1) * (Real.pi/360) from by ring,
    abs_mul, abs_of_nonneg (by positivity : (0:ℝ) ≤ Real.pi/360)]
  ring

/-- The equatorial per-degree factor `6371 · π/180 = 111.19…` lies between
111 and 112: the `eqKmHav` oracle (111 km per degree) understates the true
equatorial haversine distance by less than 1%. -/
theorem haversine_equator_bracket (l1 l2 : ℝ) (h : |l2 - l1| ≤ 180) :
    111 * |l2 - l1| ≤ haversine_distance 0 l1 0 l2 ∧
    haversine_distance 0 l1 0 l2 ≤ 112 * |l2 - l1| := by
  rw [haversine_equator l1 l2 h]
  have hgt : (3.141592 : ℝ) < Real.pi := Real.pi_gt_d6
  have hlt : Real.pi < 3.15 := Real.pi_lt_d2
  have ha : (0:ℝ) ≤ |l2 - l1| := abs_nonneg _
  constructor <;> nlinarith

/-- Generic fold invariant. -/
theorem foldl_invariant {β σ : Type} (step : σ → β → σ) (P : σ → Prop)
    (l : List β) (s : σ) (h0 : P s)
    (hstep : ∀ s' b, b ∈ l → P s' → P (step s' b)) :
    P (l.foldl step s) := by
  induction l generalizing s with
  | nil => exact h0
  | cons b t ih =>
    exact ih (step s b) (hstep s b (List.mem_cons_self b t) h0)
      (fun s' b' hb' => hstep s' b' (List.mem_cons_of_mem b hb'))

/-! ## Claim C9 -/

/-- C9: when no route-provider API key is configured,
`OpenStreetMapRouter.get_route_info` returns the haversine distance between
the two points as `distance_km` and `distance_km / 40 * 60` (40 km/h average
speed) as `duration_minutes`, for every pair of coordinates and every
behaviour of the (unused) external route path. -/
theorem c9_route_fallback (ext : ℝ × ℝ → ℝ × ℝ → RouteInfoR)
    (start_lat start_lng end_lat end_lng : ℝ) :
    (get_route_info none ext start_lat start_lng end_lat end_lng).distance_km =
      haversine_distance start_lat start_lng end_lat end_lng ∧
    (get_route_info none ext start_lat start_lng end_lat end_lng).duration_minutes =
      (get_route_info none ext start_lat start_lng end_lat end_lng).distance_km / 40 * 60 :=
  ⟨rfl, rfl⟩

/-! ## Claim C5 -/

set_option maxHeartbeats 3200000 in
/-- C5 counterexample: the claim's balance predicate (configured bounds with
the `MAX_PER_CLUSTER + 2` allowance) disagrees with the code.  Run the full
pipeline with `max_attractions_per_cluster = 7` (the planner forwards the
request's `max_attractions_per_day` unchecked) and `trip_duration_days = 1`
on the seven distinct candidates `sevenSpread` (pairwise 1.1–6.7 km apart,
so the distance matrix has positive maximum, the `dist_penalty`
normalisation is finite, and KMeans runs; `n_clusters = 1`, so the
all-zeros labelling is its only possible output): the pipeline succeeds and
the surviving size-7 cluster satisfies every condition of the claim
(`max_pairwise = 6.66 ≤ 50`, `estimated_time ≈ 7.17 ≤ 14`, `2 ≤ 7 ≤ 7 + 2`,
`value_per_hour ≈ 0.98 > 0.1` — each with margin far above the 1%
understatement of the `eqKmHav` oracle, `haversine_equator_bracket`) yet
`is_balanced` is false, because `_check_balance` hard-codes
`2 <= size <= 6` and ignores the configured bounds. -/
theorem c5_counterexample :
    sevenPipeline.map (fun l => l.map (fun c => c.is_balanced)) =
      Except.ok [false] ∧
    sevenPipeline.map (fun l => l.map (check_balance_spec cfgMaxSeven)) =
      Except.ok [true] := by
  constructor <;>
  norm_num [sevenPipeline, create_balanced_clusters, create_single_cluster,
    weighted_clustering, labelledClusters, matrixMax, groupByLabels, insertLabel,
    optimize_cluster_balance, balancePhase1, redistributeStep,
    optimize_visiting_order, optimize_cluster_order, cfgMaxSeven, sevenSpread,
    testAttrV, eqKmHav, create_cluster, recalculate_metrics,
    calc_travel_metrics, sumVisit, sumPear, allPairs, havOf, check_balance,
    check_balance_spec, get_region_name, distance_matrix, solve_tsp_greedy, tspGo,
    selectNearest, tour_distance, Except.map, List.range', List.erase, List.getD,
    Nat.min_def, Nat.max_def, List.replicate_succ, List.replicate_zero,
    sup_eq_max, inf_eq_min, abs_eq_max_neg, max_def, min_def]

/-- C5 (amended): `is_balanced` is recomputed only by `_recalculate_metrics`
(at cluster creation, attraction addition and the visiting-order pass — all
post-processing included), and after any such recomputation it is true iff
`max_pairwise_distance_km ≤ 50`, `estimated_time_hours ≤ 14`,
`2 ≤ size ≤ 6` and `value_per_hour > 0.1`, where 2 and 6 are hard-coded
literals (equal to the clusterer's default `MIN_PER_CLUSTER` and
`MAX_PER_CLUSTER` but independent of the configured bounds, and without the
claimed `+ 2` allowance). -/
theorem c5_balanced_flag (hav : Hav) (c : GeoCluster) :
    (recalculate_metrics hav c).is_balanced = true ↔
      ((recalculate_metrics hav c).max_travel_distance_km ≤ 50 ∧
       (recalculate_metrics hav c).estimated_time_hours ≤ 14 ∧
       2 ≤ (recalculate_metrics hav c).attractions.length ∧
       (recalculate_metrics hav c).attractions.length ≤ 6 ∧
       1/10 < (recalculate_metrics hav c).value_per_hour) := by
  simp [recalculate_metrics, check_balance, and_assoc]

/-! ## Claim C2 -/

/-- C2 (code bug): on the three-candidate cluster `lineCluster` (equator
points with pairwise driving distances 1, 2, 1 under `gapHav`, which is the
equatorial haversine distance up to the positive factor `6371·π/180`, see
`haversine_equator`), the visiting-order pass stores the greedy tour
`[0, 1, 2]` and assigns the tour-based travel time 3 minutes — but the
`_recalculate_metrics()` call on the next line overwrites
`total_travel_time_minutes` with the average-pairwise-distance value 4, so
the emitted cluster does *not* carry the sum of consecutive-hop durations
(3) that the code's own comment ("Recalculate travel time based on optimal
order") and the claim describe. -/
theorem c2_travel_time_overwritten :
    (optimize_cluster_order gapHav gapHav lineCluster).optimal_order = some [0, 1, 2] ∧
    (optimize_cluster_order gapHav gapHav lineCluster).total_travel_time_minutes = 4 ∧
    tour_distance (distance_matrix gapHav (lineCluster.attractions.map
        (fun a => (a.latitude.getD 0, a.longitude.getD 0)))) [0, 1, 2] / 40 * 60 = 3 := by
  refine ⟨?_, ?_, ?_⟩ <;>
  norm_num [optimize_cluster_order, lineCluster, create_cluster, threeOnLine, testAttr,
    recalculate_metrics, calc_travel_metrics, sumVisit, sumPear, allPairs, havOf,
    gapHav, check_balance, get_region_name, distance_matrix, solve_tsp_greedy,
    tspGo, selectNearest, tour_distance, List.range', List.erase, List.getD,
    Nat.min_def, Nat.max_def, sup_eq_max, inf_eq_min, max_def, min_def]

/-- For every cluster of three or more members, the travel time emitted by
the visiting-order pass equals the average-pairwise formula of
`_calculate_travel_metrics` — the tour-based assignment never survives. -/
theorem optimize_order_travel_is_avg (hav rd : Hav) (c : GeoCluster)
    (h : 3 ≤ c.attractions.length) :
    (optimize_cluster_order hav rd c).total_travel_time_minutes =
      (calc_travel_metrics hav c.attractions).2 := by
  have hn : ¬ c.attractions.length ≤ 2 := by omega
  simp [optimize_cluster_order, hn, recalculate_metrics]

/-! ## Claim C3 -/

/-- C3 counterexample: a candidate emitted by the retrieval operation whose
similarity score is -1 (cosine similarity can be negative) and whose neural
score is 1/10 carries `pear_score = -23/100`, which lies outside `[0, 1]`
and differs from the claimed clipped fusion (which would give 0): the code
performs no clipping. -/
theorem c3_counterexample :
    (get_recommendations_from_vector_db Unit Unit okEmbed searchNeg lowNeural
        "beaches" "context" 30).map (fun r => r.pear_score) = [-(23/100)] ∧
    pear_score_spec (1/10) (-1) = 0 := by
  constructor
  · norm_num [get_recommendations_from_vector_db, getRecsCore, scoreHits, okEmbed,
      searchNeg, lowNeural, negHit, mkPlaceRec, Bind.bind, Except.bind, pure,
      List.insertionSort, List.orderedInsert, Except.pure]
  · norm_num [pear_score_spec]

/-! ## Claims C3 (amended), C6, C4, C10, C8, C7 -/

theorem scoreHits_pear (V E : Type) (neural : V → V → V → Except E ℚ) (qv cv : V) :
    ∀ (hits : List (VHit V)) (out : List (PlaceRec V)),
      scoreHits V E neural qv cv hits = Except.ok out →
      ∀ r ∈ out, r.pear_score = r.neural_score * (7/10) + r.similarity_score * (3/10) := by
  intro hits
  induction hits with
  | nil =>
    intro out h r hr
    simp only [scoreHits] at h
    cases h
    simp at hr
  | cons hd tl ih =>
    intro out h r hr
    simp only [scoreHits] at h
    cases hns : neural qv cv hd.vector with
    | error e => rw [hns] at h; simp [Bind.bind, Except.bind] at h
    | ok ns =>
      rw [hns] at h
      cases hrest : scoreHits V E neural qv cv tl with
      | error e => rw [hrest] at h; simp [Bind.bind, Except.bind] at h
      | ok rest =>
        rw [hrest] at h
        simp only [Bind.bind, Except.bind] at h
        cases h
        rcases List.mem_cons.mp hr with hr1 | hr2
        · subst hr1; rfl
        · exact ih rest hrest r hr2

/-- C3 (amended): every candidate emitted by the retrieval operation carries
`pear_score = 0.7 * neural_score + 0.3 * similarity_score` exactly, with no
clipping; the score lies in `[0, 1]` whenever both component scores do (the
index's similarity score may be negative, in which case `pear_score` can
leave `[0, 1]`, as the counterexample shows). -/
theorem c3_score_fusion (V E : Type) (embed : String → Except E V)
    (search : V → Except E (List (VHit V))) (neural : V → V → V → Except E ℚ)
    (q ctx : String) (k : ℕ) (r : PlaceRec V)
    (hr : r ∈ get_recommendations_from_vector_db V E embed search neural q ctx k) :
    r.pear_score = r.neural_score * (7/10) + r.similarity_score * (3/10) ∧
    (0 ≤ r.neural_score → r.neural_score ≤ 1 → 0 ≤ r.similarity_score →
      r.similarity_score ≤ 1 → 0 ≤ r.pear_score ∧ r.pear_score ≤ 1) := by
  have hform : r.pear_score = r.neural_score * (7/10) + r.similarity_score * (3/10) := by
    unfold get_recommendations_from_vector_db at hr
    cases hcore : getRecsCore V E embed search neural q ctx k with
    | error e => rw [hcore] at hr; simp at hr
    | ok out =>
      rw [hcore] at hr
      unfold getRecsCore at hcore
      cases hqv : embed q with
      | error e => rw [hqv] at hcore; simp [Bind.bind, Except.bind] at hcore
      | ok qv =>
        rw [hqv] at hcore
        simp only [Bind.bind, Except.bind] at hcore
        cases hh : search qv with
        | error e => rw [hh] at hcore; simp [Bind.bind, Except.bind] at hcore
        | ok hits =>
          rw [hh] at hcore
          match hits, hcore with
          | [], hcore =>
            simp only [Except.pure] at hcore
            cases hcore
            simp at hr
          | hd :: tl, hcore =>
            cases hcv : embed ctx with
            | error e => rw [hcv] at hcore; simp at hcore
            | ok cv =>
              rw [hcv] at hcore
              simp only [Bind.bind, Except.bind] at hcore
              cases hrank : scoreHits V E neural qv cv (hd :: tl) with
              | error e => rw [hrank] at hcore; simp at hcore
              | ok ranked =>
                rw [hrank] at hcore
                simp only [Except.pure] at hcore
                cases hcore
                have hmem : r ∈ ranked := by
                  have h1 : r ∈ List.insertionSort
                      (fun a b => b.pear_score ≤ a.pear_score) ranked :=
                    List.mem_of_mem_take hr
                  exact (List.perm_insertionSort
                    (fun a b => b.pear_score ≤ a.pear_score) ranked).mem_iff.mp h1
                exact scoreHits_pear V E neural qv cv (hd :: tl) ranked hrank r hmem
  refine ⟨hform, fun h1 h2 h3 h4 => ?_⟩
  constructor
  · rw [hform]; nlinarith
  · rw [hform]; nlinarith

theorem c3_witness :
    mkPlaceRec Unit midHit (1/2) ∈ get_recommendations_from_vector_db Unit Unit
      okEmbed searchMid midNeural "q" "c" 30 ∧
    (mkPlaceRec Unit midHit (1/2)).pear_score =
      (mkPlaceRec Unit midHit (1/2)).neural_score * (7/10) +
      (mkPlaceRec Unit midHit (1/2)).similarity_score * (3/10) :=
  ⟨by norm_num [get_recommendations_from_vector_db, getRecsCore, scoreHits, okEmbed,
      searchMid, midNeural, midHit, mkPlaceRec, Bind.bind, Except.bind, pure,
      List.insertionSort, List.orderedInsert, Except.pure],
   (c3_score_fusion Unit Unit okEmbed searchMid midNeural "q" "c" 30
      (mkPlaceRec Unit midHit (1/2))
      (by norm_num [get_recommendations_from_vector_db, getRecsCore, scoreHits, okEmbed,
        searchMid, midNeural, midHit, mkPlaceRec, Bind.bind, Except.bind, pure,
        List.insertionSort, List.orderedInsert, Except.pure])).1⟩

/-- C6 (amended): `get_recommendations_from_vector_db` never propagates an
exception: the whole body is wrapped in `try/except`, so whenever the inner
computation raises — from the embedder, the index, or the scoring of any
individual candidate — the call returns the ordinary empty list, exactly as
it does for an empty hit list. -/
theorem c6_failure_semantics (V E : Type) (embed : String → Except E V)
    (search : V → Except E (List (VHit V))) (neural : V → V → V → Except E ℚ)
    (q ctx : String) (k : ℕ) :
    (∀ e : E, getRecsCore V E embed search neural q ctx k = Except.error e →
        get_recommendations_from_vector_db V E embed search neural q ctx k = []) ∧
    (∀ qv : V, embed q = Except.ok qv → search qv = Except.ok [] →
        get_recommendations_from_vector_db V E embed search neural q ctx k = []) := by
  constructor
  · intro e he
    simp [get_recommendations_from_vector_db, he]
  · intro qv h1 h2
    simp [get_recommendations_from_vector_db, getRecsCore, h1, h2,
      Bind.bind, Except.bind, Except.pure, pure]

theorem c6_witness :
    get_recommendations_from_vector_db Unit Unit okEmbed searchRaise lowNeural
      "q" "c" 30 = [] :=
  (c6_failure_semantics Unit Unit okEmbed searchRaise lowNeural "q" "c" 30).1 () rfl

/-- C6 counterexample: an index exception does not propagate — the call
returns the ordinary value `[]`, indistinguishable from the empty-hit-list
result — and a per-candidate scoring exception does not keep that candidate
with `pear_score = 0.5` — it also empties the whole result (there is no
per-candidate handler in this method). -/
theorem c6_counterexample :
    get_recommendations_from_vector_db Unit Unit okEmbed searchRaise midNeural
      "q" "c" 30 = [] ∧
    get_recommendations_from_vector_db Unit Unit okEmbed searchMid neuralRaise
      "q" "c" 30 = [] := by
  constructor <;>
  norm_num [get_recommendations_from_vector_db, getRecsCore, scoreHits, okEmbed,
    searchRaise, searchMid, midHit, neuralRaise, midNeural, Bind.bind, Except.bind,
    pure, Except.pure]

/-- Coordinate enrichment always yields both coordinates (gazetteer hit or
island-centre fallback). -/
theorem enrich_coords_isSome (pr : String → String → ℕ) (gaz : Gazetteer)
    (a : AttrDict) :
    (enrich_attraction_with_coordinates pr gaz a).latitude.isSome = true ∧
    (enrich_attraction_with_coordinates pr gaz a).longitude.isSome = true := by
  unfold enrich_attraction_with_coordinates
  by_cases h : a.latitude.isSome ∧ a.longitude.isSome
  · rw [if_pos h]; exact ⟨h.1, h.2⟩
  · rw [if_neg h]
    cases get_coordinates pr gaz (a.name.getD "") <;> simp

/-- The preparation loop of the planner appends every recommendation: the
coordinate filter never rejects, because enrichment is total. -/
theorem prepare_eq_map (V : Type) (pr : String → String → ℕ) (gaz : Gazetteer) :
    ∀ (recs : List (PlaceRec V)) (acc : List AttrDict),
      recs.foldl
        (fun acc rec =>
          let attraction := enrich_attraction_with_coordinates pr gaz (recToAttraction V rec)
          if attraction.latitude.isSome ∧ attraction.longitude.isSome then
            acc ++ [attraction]
          else acc)
        acc =
      acc ++ recs.map (fun rec =>
        enrich_attraction_with_coordinates pr gaz (recToAttraction V rec)) := by
  intro recs
  induction recs with
  | nil => intro acc; simp
  | cons rec t ih =>
    intro acc
    have h := enrich_coords_isSome pr gaz (recToAttraction V rec)
    simp only [List.foldl_cons, List.map_cons]
    rw [if_pos ⟨h.1, h.2⟩, ih]
    simp

/-- C4 (amended): the planner drops nothing before clustering.  Coordinate
enrichment always succeeds — a candidate whose name has neither an exact nor
a fuzzy gazetteer match is kept and receives the island-centroid fallback
coordinates — so the `is not None` filter is dead code and every retrieved
candidate (assuming, as the code does, a non-`None` payload) reaches the
clustering input with both coordinates set. -/
theorem c4_no_drop (V : Type) (pr : String → String → ℕ) (gaz : Gazetteer)
    (recs : List (PlaceRec V)) (_hp : ∀ r ∈ recs, r.payload.isSome = true) :
    (prepareForClustering V pr gaz recs).length = recs.length ∧
    ∀ a ∈ prepareForClustering V pr gaz recs,
      a.latitude.isSome = true ∧ a.longitude.isSome = true := by
  unfold prepareForClustering
  rw [prepare_eq_map]
  constructor
  · simp
  · intro a ha
    simp only [List.nil_append, List.mem_map] at ha
    obtain ⟨rec, _, rfl⟩ := ha
    exact enrich_coords_isSome pr gaz (recToAttraction V rec)

theorem c4_witness :
    ((∀ r ∈ [unknownRec], r.payload.isSome = true) : Prop) ∧
    (prepareForClustering Unit prZero [] [unknownRec]).length = [unknownRec].length ∧
    (∀ a ∈ prepareForClustering Unit prZero [] [unknownRec],
      a.latitude.isSome = true ∧ a.longitude.isSome = true) :=
  ⟨by simp [unknownRec], c4_no_drop Unit prZero [] [unknownRec] (by simp [unknownRec])⟩

/-- C4 counterexample: a retrieved candidate whose name has no gazetteer
match whatsoever (the gazetteer here is empty) is *not* dropped: it reaches
the clustering input bearing the island-centroid fallback coordinates
`(7.8731, 80.7718)` with `coordinate_source = 'fallback_center'`. -/
theorem c4_counterexample :
    prepareForClustering Unit prZero [] [unknownRec] =
      [{ id := "r1", name := some "Totally Unknown Place", pear_score := 1/2,
         latitude := some (78731/10000), longitude := some (807718/10000),
         coordinate_source := some "fallback_center" }] := by
  norm_num [prepareForClustering, unknownRec, recToAttraction, prZero,
    enrich_attraction_with_coordinates, get_coordinates, gazGet,
    fuzzy_search_coordinates, Option.getD]

/-- C10: coordinate enrichment is total and frame-preserving: the result
always has both coordinates (island centroid `(7.8731, 80.7718)` with
`coordinate_source = 'fallback_center'` when the gazetteer has no match);
every field other than `latitude`, `longitude` and `coordinate_source` keeps
its input value; and a record that already has both coordinates is returned
unchanged. -/
theorem c10_enrich_total_frame (pr : String → String → ℕ) (gaz : Gazetteer)
    (a : AttrDict) :
    (enrich_attraction_with_coordinates pr gaz a).latitude.isSome = true ∧
    (enrich_attraction_with_coordinates pr gaz a).longitude.isSome = true ∧
    (enrich_attraction_with_coordinates pr gaz a).id = a.id ∧
    (enrich_attraction_with_coordinates pr gaz a).name = a.name ∧
    (enrich_attraction_with_coordinates pr gaz a).category = a.category ∧
    (enrich_attraction_with_coordinates pr gaz a).description = a.description ∧
    (enrich_attraction_with_coordinates pr gaz a).region = a.region ∧
    (enrich_attraction_with_coordinates pr gaz a).pear_score = a.pear_score ∧
    (enrich_attraction_with_coordinates pr gaz a).visit_duration_minutes =
      a.visit_duration_minutes ∧
    (enrich_attraction_with_coordinates pr gaz a).rest = a.rest ∧
    (a.latitude.isSome = true → a.longitude.isSome = true →
      enrich_attraction_with_coordinates pr gaz a = a) ∧
    (¬(a.latitude.isSome = true ∧ a.longitude.isSome = true) →
      get_coordinates pr gaz (a.name.getD "") = none →
      (enrich_attraction_with_coordinates pr gaz a).latitude = some (78731/10000) ∧
      (enrich_attraction_with_coordinates pr gaz a).longitude = some (807718/10000) ∧
      (enrich_attraction_with_coordinates pr gaz a).coordinate_source =
        some "fallback_center") := by
  unfold enrich_attraction_with_coordinates
  by_cases h : a.latitude.isSome ∧ a.longitude.isSome
  · rw [if_pos h]
    refine ⟨h.1, h.2, rfl, rfl, rfl, rfl, rfl, rfl, rfl, rfl, fun _ _ => rfl, fun hc _ => ?_⟩
    exact absurd h hc
  · rw [if_neg h]
    cases hg : get_coordinates pr gaz (a.name.getD "") with
    | some c =>
      refine ⟨rfl, rfl, rfl, rfl, rfl, rfl, rfl, rfl, rfl, rfl, fun h1 h2 => ?_, fun _ hc => ?_⟩
      · exact absurd ⟨h1, h2⟩ h
      · simp at hc
    | none =>
      exact ⟨rfl, rfl, rfl, rfl, rfl, rfl, rfl, rfl, rfl, rfl,
        fun h1 h2 => absurd ⟨h1, h2⟩ h, fun _ _ => ⟨rfl, rfl, rfl⟩⟩

theorem c10_witness :
    (enrich_attraction_with_coordinates prZero [] { name := some "Lonely Beach" }).latitude.isSome = true ∧
    (enrich_attraction_with_coordinates prZero [] { name := some "Lonely Beach" }).longitude.isSome = true ∧
    (enrich_attraction_with_coordinates prZero [] { name := some "Lonely Beach" }).id =
      ({ name := some "Lonely Beach" } : AttrDict).id :=
  ⟨(c10_enrich_total_frame prZero [] { name := some "Lonely Beach" }).1,
   (c10_enrich_total_frame prZero [] { name := some "Lonely Beach" }).2.1,
   (c10_enrich_total_frame prZero [] { name := some "Lonely Beach" }).2.2.1⟩

/-- Characterisation of the fuzzy accumulator loop: starting from best score
`b` and best match `m`, the final best match is the first entry attaining
the maximal score, provided that maximum beats `b` and reaches the
threshold; otherwise the initial `m` survives. -/
theorem fuzzy_fold_char (pr : String → String → ℕ) (q : String) (th : ℕ) :
    ∀ (gaz : Gazetteer) (b : ℕ) (m : Option (ℚ × ℚ)),
      (gaz.foldl
        (fun (acc : ℕ × Option (ℚ × ℚ)) e =>
          let score := pr q.toLower e.1
          if acc.1 < score ∧ th ≤ score then (score, some e.2) else acc)
        (b, m)).2 =
      if b < maxFuzzScore pr q gaz ∧ th ≤ maxFuzzScore pr q gaz then
        (gaz.find? (fun e => pr q.toLower e.1 == maxFuzzScore pr q gaz)).map
          (fun e => e.2)
      else m := by
  intro gaz
  induction gaz with
  | nil =>
    intro b m
    simp [maxFuzzScore]
  | cons e t ih =>
    intro b m
    have hmax : maxFuzzScore pr q (e :: t) = max (pr q.toLower e.1) (maxFuzzScore pr q t) := rfl
    simp only [List.foldl_cons]
    by_cases hc : b < pr q.toLower e.1 ∧ th ≤ pr q.toLower e.1
    · rw [if_pos hc, ih]
      by_cases hlt : pr q.toLower e.1 < maxFuzzScore pr q t
      · have h80 : th ≤ maxFuzzScore pr q t := le_trans hc.2 (le_of_lt hlt)
        rw [if_pos ⟨hlt, h80⟩, hmax]
        have hm : max (pr q.toLower e.1) (maxFuzzScore pr q t) = maxFuzzScore pr q t :=
          max_eq_right (le_of_lt hlt)
        rw [hm, if_pos ⟨lt_of_lt_of_le hc.1 (le_of_lt hlt), h80⟩]
        rw [List.find?_cons_of_neg _ (by simp; omega)]
      · push_neg at hlt
        rw [if_neg (by omega), hmax]
        have hm : max (pr q.toLower e.1) (maxFuzzScore pr q t) = pr q.toLower e.1 :=
          max_eq_left hlt
        rw [hm, if_pos ⟨hc.1, hc.2⟩]
        rw [List.find?_cons_of_pos _ (by simp)]
        rfl
    · rw [if_neg hc, ih, hmax]
      by_cases ht : b < maxFuzzScore pr q t ∧ th ≤ maxFuzzScore pr q t
      · have hs_lt : pr q.toLower e.1 < maxFuzzScore pr q t := by
          rcases Nat.lt_or_ge (pr q.toLower e.1) (maxFuzzScore pr q t) with h | h
          · exact h
          · exfalso
            have : maxFuzzScore pr q t ≤ pr q.toLower e.1 := h
            omega
        have hm : max (pr q.toLower e.1) (maxFuzzScore pr q t) = maxFuzzScore pr q t :=
          max_eq_right (le_of_lt hs_lt)
        rw [if_pos ht, hm, if_pos ⟨lt_of_lt_of_le ht.1 (le_refl _), ht.2⟩]
        rw [List.find?_cons_of_neg _ (by simp; omega)]
      · rw [if_neg ht]
        rw [if_neg (by
          intro hcon
          rcases Nat.lt_or_ge (pr q.toLower e.1) (maxFuzzScore pr q t) with h | h
          · rw [max_eq_right (le_of_lt h)] at hcon
            exact ht hcon
          · rw [max_eq_left h] at hcon
            omega)]

/-- C8: for every non-empty queried name, `CoordinateService.get_coordinates`
returns exactly what the claim describes: the case-insensitive exact match
when one exists, otherwise the coordinates of the first-encountered entry
attaining the highest fuzzy score provided that score is ≥ 80, otherwise
`None`; and (being a pure function of its inputs) a second call with the
same name returns the same result. -/
theorem c8_lookup_contract (pr : String → String → ℕ) (gaz : Gazetteer)
    (nm : String) (h : nm ≠ "") :
    get_coordinates pr gaz nm = get_coordinates_spec pr gaz nm ∧
    get_coordinates pr gaz nm = get_coordinates pr gaz nm := by
  refine ⟨?_, rfl⟩
  unfold get_coordinates get_coordinates_spec
  rw [if_neg h]
  cases gazGet gaz nm.toLower with
  | some c => rfl
  | none =>
    unfold fuzzy_search_coordinates
    rw [fuzzy_fold_char]
    by_cases h80 : 80 ≤ maxFuzzScore pr nm gaz
    · rw [if_pos ⟨by omega, h80⟩, if_pos h80]
    · rw [if_neg (by omega), if_neg h80]

theorem c8_witness :
    ("Sigiriya Rock Fortress" ≠ "") ∧
    get_coordinates prZero gazSigiriya "Sigiriya Rock Fortress" =
      get_coordinates_spec prZero gazSigiriya "Sigiriya Rock Fortress" :=
  ⟨by decide,
   (c8_lookup_contract prZero gazSigiriya "Sigiriya Rock Fortress" (by decide)).1⟩

/-- The greedy selection returns an element of the candidate list. -/
theorem selectNearest_mem (D : ℕ → ℕ → ℚ) (current : ℕ) :
    ∀ (l : List ℕ) (acc : Option ℕ) (m : ℕ),
      l.foldl
        (fun acc x =>
          match acc with
          | none => some x
          | some b => if D current x < D current b then some x else acc)
        acc = some m →
      acc = some m ∨ m ∈ l := by
  intro l
  induction l with
  | nil => intro acc m h; exact Or.inl h
  | cons x t ih =>
    intro acc m h
    rcases ih _ m h with h1 | h2
    · cases acc with
      | none =>
        simp only [] at h1
        cases h1
        exact Or.inr (List.mem_cons_self _ _)
      | some b =>
        simp only [] at h1
        by_cases hd : D current x < D current b
        · rw [if_pos hd] at h1
          cases h1
          exact Or.inr (List.mem_cons_self _ _)
        · rw [if_neg hd] at h1
          exact Or.inl h1
    · exact Or.inr (List.mem_cons_of_mem _ h2)

/-- The greedy selection succeeds on a non-empty candidate list. -/
theorem selectNearest_isSome (D : ℕ → ℕ → ℚ) (current : ℕ) :
    ∀ (l : List ℕ) (b : ℕ),
      ∃ m, l.foldl
        (fun acc x =>
          match acc with
          | none => some x
          | some b => if D current x < D current b then some x else acc)
        (some b) = some m := by
  intro l
  induction l with
  | nil => intro b; exact ⟨b, rfl⟩
  | cons x t ih =>
    intro b
    simp only [List.foldl_cons]
    by_cases hd : D current x < D current b
    · simp only [if_pos hd]; exact ih x
    · simp only [if_neg hd]; exact ih b

/-- The greedy while-loop visits exactly the unvisited indices: with enough
fuel its output is a permutation of its input list. -/
theorem tspGo_perm (D : ℕ → ℕ → ℚ) :
    ∀ (fuel : ℕ) (current : ℕ) (l : List ℕ), l.length ≤ fuel →
      (tspGo D fuel current l).Perm l := by
  intro fuel
  induction fuel with
  | zero =>
    intro current l hl
    rw [List.length_eq_zero.mp (Nat.le_zero.mp hl)]
    exact List.Perm.refl _
  | succ f ih =>
    intro current l hl
    cases l with
    | nil => simp [tspGo, selectNearest]
    | cons x t =>
      have hsel : ∃ m, selectNearest D current (x :: t) = some m := by
        unfold selectNearest
        simp only [List.foldl_cons]
        exact selectNearest_isSome D current t x
      obtain ⟨m, hm⟩ := hsel
      have hmem : m ∈ x :: t := by
        rcases selectNearest_mem D current (x :: t) none m hm with h1 | h2
        · cases h1
        · exact h2
      simp only [tspGo, hm]
      have hlen : ((x :: t).erase m).length ≤ f := by
        rw [List.length_erase_of_mem hmem]
        simp only [List.length_cons] at hl ⊢
        omega
      exact ((ih m _ hlen).cons m).trans (List.perm_cons_erase hmem).symm

/-- For `n ≥ 1`, `range n` is `0` followed by its own tail. -/
theorem range_cons_drop (n : ℕ) (h : 1 ≤ n) :
    0 :: (List.range n).drop 1 = List.range n := by
  obtain ⟨m, rfl⟩ := Nat.exists_eq_add_of_le h
  rw [Nat.add_comm, List.range_succ_eq_map]
  simp

/-- The tour produced by `_solve_tsp_greedy` is a permutation of
`0, …, n-1`, and is the identity for `n ≤ 2`. -/
theorem solve_tsp_greedy_perm (D : ℕ → ℕ → ℚ) (n : ℕ) :
    (solve_tsp_greedy D n).Perm (List.range n) ∧
    (n ≤ 2 → solve_tsp_greedy D n = List.range n) := by
  constructor
  · unfold solve_tsp_greedy
    by_cases hn : n ≤ 2
    · rw [if_pos hn]
    · rw [if_neg hn]
      have h1 : 1 ≤ n := by omega
      have hlen : ((List.range n).drop 1).length ≤ n - 1 := by
        simp [List.length_drop]
      have hperm := tspGo_perm D (n - 1) 0 ((List.range n).drop 1) hlen
      calc (0 :: tspGo D (n - 1) 0 ((List.range n).drop 1)).Perm
            (0 :: (List.range n).drop 1) := hperm.cons 0
        _ = _ := by rw [range_cons_drop n h1]
  · intro hn
    unfold solve_tsp_greedy
    rw [if_pos hn]

/-- C7: the visiting-order pass stores for every cluster exactly the greedy
nearest-neighbour open tour over the cluster's distance matrix started at
index 0 (ties to the lowest index); the stored order is a permutation of
`0, …, size-1`, and for clusters of at most two members it is
`[0, …, size-1]` itself. -/
theorem c7_order_is_greedy_permutation (hav rd : Hav) (c : GeoCluster) :
    ∃ ord : List ℕ,
      (optimize_cluster_order hav rd c).optimal_order = some ord ∧
      ord = solve_tsp_greedy
        (distance_matrix rd (c.attractions.map
          (fun a => (a.latitude.getD 0, a.longitude.getD 0))))
        c.attractions.length ∧
      ord.Perm (List.range c.attractions.length) ∧
      (c.attractions.length ≤ 2 → ord = List.range c.attractions.length) := by
  by_cases hn : c.attractions.length ≤ 2
  · refine ⟨List.range c.attractions.length, ?_, ?_, List.Perm.refl _, fun _ => rfl⟩
    · simp [optimize_cluster_order, hn]
    · exact ((solve_tsp_greedy_perm _ _).2 hn).symm
  · refine ⟨solve_tsp_greedy
        (distance_matrix rd (c.attractions.map
          (fun a => (a.latitude.getD 0, a.longitude.getD 0))))
        c.attractions.length, ?_, rfl, (solve_tsp_greedy_perm _ _).1,
        fun h => absurd h hn⟩
    simp [optimize_cluster_order, hn, recalculate_metrics]

theorem c7_witness :
    ∃ ord : List ℕ,
      (optimize_cluster_order gapHav gapHav lineCluster).optimal_order = some ord ∧
      ord = solve_tsp_greedy
        (distance_matrix gapHav (lineCluster.attractions.map
          (fun a => (a.latitude.getD 0, a.longitude.getD 0))))
        lineCluster.attractions.length ∧
      ord.Perm (List.range lineCluster.attractions.length) ∧
      (lineCluster.attractions.length ≤ 2 →
        ord = List.range lineCluster.attractions.length) :=
  c7_order_is_greedy_permutation gapHav gapHav lineCluster

/-! ## Claim C1 -/

/-- `_create_cluster` stores exactly the given member list. -/
theorem create_cluster_attractions (hav : Hav) (i : ℕ) (attrs : List AttrDict) :
    (create_cluster hav i attrs).attractions = attrs := by
  unfold create_cluster
  split <;> rfl

/-- `_recalculate_metrics` leaves the member list unchanged. -/
theorem recalculate_metrics_attractions (hav : Hav) (c : GeoCluster) :
    (recalculate_metrics hav c).attractions = c.attractions := rfl

/-- A balance flag set by `_recalculate_metrics` certifies the hard-coded
size bounds. -/
theorem recalc_balanced_size (hav : Hav) (c : GeoCluster)
    (h : (recalculate_metrics hav c).is_balanced = true) :
    2 ≤ c.attractions.length ∧ c.attractions.length ≤ 6 := by
  simp only [recalculate_metrics, check_balance, decide_eq_true_eq] at h
  exact ⟨h.2.2.1, h.2.2.2.1⟩

/-- A balance flag on a freshly created non-empty cluster certifies the
hard-coded size bounds. -/
theorem create_cluster_balanced_size (hav : Hav) (i : ℕ) (a : AttrDict)
    (t : List AttrDict) (h : (create_cluster hav i (a :: t)).is_balanced = true) :
    2 ≤ (a :: t).length ∧ (a :: t).length ≤ 6 := by
  simp only [create_cluster] at h
  exact recalc_balanced_size hav _ h

/-- `_recalculate_center` leaves the member list unchanged. -/
theorem recalculate_center_attractions (c : GeoCluster) :
    (recalculate_center c).attractions = c.attractions := by
  unfold recalculate_center
  split <;> rfl

/-- `add_attraction` grows the member list by exactly one. -/
theorem add_attraction_length (hav : Hav) (c : GeoCluster) (a : AttrDict) :
    (add_attraction hav c a).attractions.length = c.attractions.length + 1 := by
  unfold add_attraction
  rw [recalculate_metrics_attractions, recalculate_center_attractions]
  simp

/-- A positive `_can_add_to_cluster` verdict implies the cluster is below
capacity. -/
theorem can_add_lt_max (hav : Hav) (cfg : ClustererConfig) (a : AttrDict)
    (c : GeoCluster) (h : can_add_to_cluster hav cfg a c = true) :
    c.attractions.length < cfg.max_attractions_per_cluster := by
  unfold can_add_to_cluster at h
  by_cases hc : cfg.max_attractions_per_cluster ≤ c.attractions.length
  · rw [if_pos hc] at h; cases h
  · omega

/-- Ceiling-division bound: `n ≤ ⌈n/m⌉ · m`. -/
theorem le_ceil_mul (n m : ℕ) (hm : 1 ≤ m) : n ≤ ((n + m - 1) / m) * m := by
  rw [Nat.mul_comm]
  have hd := Nat.div_add_mod (n + m - 1) m
  have hr := Nat.mod_lt (n + m - 1) (show 0 < m by omega)
  generalize hK : m * ((n + m - 1) / m) = K at hd ⊢
  generalize hR : (n + m - 1) % m = R at hd hr
  omega

/-- The stride slice takes at most `⌈len/ns⌉` elements:
`len(everyNth l ns) · ns ≤ len(l) + ns - 1`. -/
theorem everyNth_mul_le {α : Type} (ns : ℕ) :
    ∀ (fuel : ℕ) (l : List α), l.length ≤ fuel →
      (everyNth l ns).length * ns ≤ l.length + (ns - 1) := by
  intro fuel
  induction fuel with
  | zero =>
    intro l hl
    have hnil : l = [] := List.length_eq_zero.mp (Nat.le_zero.mp hl)
    subst hnil
    simp [everyNth]
  | succ f ih =>
    intro l hl
    cases l with
    | nil => simp [everyNth]
    | cons a t =>
      have heq : everyNth (a :: t) ns = a :: everyNth (t.drop (ns - 1)) ns := by
        simp [everyNth]
      rw [heq]
      simp only [List.length_cons, Nat.succ_mul]
      simp only [List.length_cons] at hl
      rcases Nat.lt_or_ge t.length (ns - 1) with hsmall | hbig
      · have hnil : t.drop (ns - 1) = [] := List.drop_eq_nil_of_le (Nat.le_of_lt hsmall)
        have h0 : everyNth ([] : List α) ns = [] := by simp [everyNth]
        rw [hnil, h0]
        simp only [List.length_nil, Nat.zero_mul]
        omega
      · have hih := ih (t.drop (ns - 1)) (by
          rw [List.length_drop]
          omega)
        rw [List.length_drop] at hih
        generalize hA : (everyNth (t.drop (ns - 1)) ns).length * ns = A at hih ⊢
        omega

/-- From `k·ns ≤ n + ns - 1` and `n ≤ ns·mx` (with `ns ≥ 1`), `k ≤ mx`. -/
theorem bound_from_mul (k ns mx n : ℕ) (h1 : k * ns ≤ n + ns - 1)
    (h2 : n ≤ ns * mx) (hns : 1 ≤ ns) : k ≤ mx := by
  by_contra hk
  push_neg at hk
  have hmul : (mx + 1) * ns ≤ k * ns := Nat.mul_le_mul_right ns hk
  rw [Nat.succ_mul] at hmul
  rw [Nat.mul_comm ns mx] at h2
  generalize hA : k * ns = A at h1 hmul
  generalize hB : mx * ns = B at h2 hmul
  omega

/-- Size bounds for the split fold: every appended cluster is built from a
non-empty stride slice of at most `mx` elements. -/
theorem split_fold_sizes (hav : Hav) (mx ns : ℕ) (sorted : List AttrDict)
    (hbound : sorted.length ≤ ns * mx) :
    ∀ s ∈ (List.range ns).foldl
      (fun acc i =>
        match everyNth (sorted.drop i) ns with
        | [] => acc
        | b :: bs => acc ++ [create_cluster hav acc.length (b :: bs)]) [],
      1 ≤ s.attractions.length ∧ s.attractions.length ≤ mx := by
  refine foldl_invariant _
    (fun (acc : List GeoCluster) =>
      ∀ s ∈ acc, 1 ≤ s.attractions.length ∧ s.attractions.length ≤ mx)
    (List.range ns) [] (by intro s hs; cases hs) ?_
  intro acc i hi hacc s hs
  cases hsp : everyNth (sorted.drop i) ns with
  | nil =>
    rw [hsp] at hs
    exact hacc s hs
  | cons b bs =>
    rw [hsp] at hs
    rcases List.mem_append.mp hs with h1 | h2
    · exact hacc s h1
    · rcases List.mem_singleton.mp h2 with rfl
      rw [create_cluster_attractions]
      have hns1 : 1 ≤ ns := by
        by_contra hn0
        push_neg at hn0
        interval_cases ns
        simp [List.range_zero] at hi
      have hle := everyNth_mul_le ns (sorted.drop i).length (sorted.drop i) (le_refl _)
      rw [hsp, List.length_drop] at hle
      refine ⟨by simp, ?_⟩
      refine bound_from_mul (b :: bs).length ns mx sorted.length ?_ hbound hns1
      have : sorted.length - i ≤ sorted.length := Nat.sub_le _ _
      omega

/-- Every cluster emitted by `_split_cluster` is non-empty and has at most
`MAX_PER_CLUSTER` members. -/
theorem split_cluster_sizes (hav : Hav) (cfg : ClustererConfig) (c : GeoCluster)
    (hmax : 1 ≤ cfg.max_attractions_per_cluster) :
    ∀ s ∈ split_cluster hav cfg c,
      1 ≤ s.attractions.length ∧
      s.attractions.length ≤ cfg.max_attractions_per_cluster := by
  intro s hs
  unfold split_cluster at hs
  refine split_fold_sizes hav cfg.max_attractions_per_cluster
    ((c.attractions.length + cfg.max_attractions_per_cluster - 1) /
      cfg.max_attractions_per_cluster)
    (List.insertionSort (fun a b => b.pear_score ≤ a.pear_score) c.attractions)
    ?_ s hs
  rw [List.length_insertionSort]
  exact le_ceil_mul c.attractions.length cfg.max_attractions_per_cluster hmax

/-- Size bounds after the first balancing pass: balanced clusters were
certified `≤ 6` by `_check_balance`, oversize clusters are split into pieces
of at most `MAX_PER_CLUSTER`, over-radius clusters are dissolved, and the
remaining kept clusters have at most `MAX_PER_CLUSTER` members. -/
theorem balancePhase1_sizes (hav : Hav) (cfg : ClustererConfig)
    (clusters : List GeoCluster) (hmax : 1 ≤ cfg.max_attractions_per_cluster)
    (hI : ∀ c ∈ clusters, c.attractions ≠ [] ∧
      (c.is_balanced = true → c.attractions.length ≤ 6)) :
    ∀ c ∈ (balancePhase1 hav cfg clusters).1,
      1 ≤ c.attractions.length ∧
      c.attractions.length ≤ max cfg.max_attractions_per_cluster 6 := by
  unfold balancePhase1
  have h := foldl_invariant
    (fun (acc : List GeoCluster × List AttrDict) c =>
      if c.is_balanced then (acc.1 ++ [c], acc.2)
      else if cfg.max_attractions_per_cluster < c.attractions.length then
        (acc.1 ++ split_cluster hav cfg c, acc.2)
      else if cfg.max_cluster_radius_km < c.max_travel_distance_km then
        (acc.1, acc.2 ++ c.attractions)
      else (acc.1 ++ [c], acc.2))
    (fun (acc : List GeoCluster × List AttrDict) =>
      ∀ c ∈ acc.1, 1 ≤ c.attractions.length ∧
        c.attractions.length ≤ max cfg.max_attractions_per_cluster 6)
    clusters ([], []) (by intro c hc; cases hc) ?_
  · exact h
  · intro acc c hc hacc
    have hIc := hI c hc
    by_cases hb : c.is_balanced
    · simp only [if_pos hb]
      intro d hd
      rcases List.mem_append.mp hd with h1 | h2
      · exact hacc d h1
      · rcases List.mem_singleton.mp h2 with rfl
        have hlen := hIc.2 hb
        have hne : 0 < d.attractions.length := List.length_pos.mpr hIc.1
        exact ⟨hne, le_trans hlen (le_max_right _ _)⟩
    · simp only [if_neg hb]
      by_cases hover : cfg.max_attractions_per_cluster < c.attractions.length
      · simp only [if_pos hover]
        intro d hd
        rcases List.mem_append.mp hd with h1 | h2
        · exact hacc d h1
        · have := split_cluster_sizes hav cfg c hmax d h2
          exact ⟨this.1, le_trans this.2 (le_max_left _ _)⟩
      · simp only [if_neg hover]
        by_cases hrad : cfg.max_cluster_radius_km < c.max_travel_distance_km
        · simp only [if_pos hrad]
          exact hacc
        · simp only [if_neg hrad]
          intro d hd
          rcases List.mem_append.mp hd with h1 | h2
          · exact hacc d h1
          · rcases List.mem_singleton.mp h2 with rfl
            have hne : 0 < d.attractions.length := List.length_pos.mpr hIc.1
            exact ⟨hne, le_trans (by omega) (le_max_left _ _)⟩

/-- One redistribution step preserves the size bounds: an admissible cluster
grows to at most `MAX_PER_CLUSTER`, and an orphan becomes a singleton
cluster. -/
theorem redistributeStep_sizes (hav : Hav) (cfg : ClustererConfig)
    (bal : List GeoCluster) (a : AttrDict)
    (hacc : ∀ c ∈ bal, 1 ≤ c.attractions.length ∧
      c.attractions.length ≤ max cfg.max_attractions_per_cluster 6) :
    ∀ c ∈ redistributeStep hav cfg bal a,
      1 ≤ c.attractions.length ∧
      c.attractions.length ≤ max cfg.max_attractions_per_cluster 6 := by
  intro c hc
  unfold redistributeStep at hc
  have hsingleton : ∀ d ∈ bal ++ [create_cluster hav bal.length [a]],
      1 ≤ d.attractions.length ∧
      d.attractions.length ≤ max cfg.max_attractions_per_cluster 6 := by
    intro d hd
    rcases List.mem_append.mp hd with h1 | h2
    · exact hacc d h1
    · rcases List.mem_singleton.mp h2 with rfl
      rw [create_cluster_attractions]
      refine ⟨by simp, ?_⟩
      have h1 : ([a] : List AttrDict).length = 1 := rfl
      rw [h1]
      exact le_trans (by norm_num) (le_max_right _ _)
  cases hfind : find_best_cluster_for_attraction hav cfg a bal with
  | none =>
    simp only [hfind] at hc
    exact hsingleton c hc
  | some i =>
    simp only [hfind] at hc
    by_cases hcan : can_add_to_cluster hav cfg a (bal.getD i default)
    · rw [if_pos hcan] at hc
      rcases List.mem_or_eq_of_mem_set hc with h1 | h2
      · exact hacc c h1
      · subst h2
        rw [add_attraction_length]
        have hlt := can_add_lt_max hav cfg a (bal.getD i default) hcan
        exact ⟨by omega, le_trans (by omega) (le_max_left _ _)⟩
    · rw [if_neg hcan] at hc
      exact hsingleton c hc

/-- Size bounds after the whole `_optimize_cluster_balance` pass. -/
theorem optimize_cluster_balance_sizes (hav : Hav) (cfg : ClustererConfig)
    (clusters : List GeoCluster) (hmax : 1 ≤ cfg.max_attractions_per_cluster)
    (hI : ∀ c ∈ clusters, c.attractions ≠ [] ∧
      (c.is_balanced = true → c.attractions.length ≤ 6)) :
    ∀ c ∈ optimize_cluster_balance hav cfg clusters,
      1 ≤ c.attractions.length ∧
      c.attractions.length ≤ max cfg.max_attractions_per_cluster 6 := by
  unfold optimize_cluster_balance
  exact foldl_invariant (redistributeStep hav cfg)
    (fun (acc : List GeoCluster) =>
      ∀ c ∈ acc, 1 ≤ c.attractions.length ∧
        c.attractions.length ≤ max cfg.max_attractions_per_cluster 6)
    (balancePhase1 hav cfg clusters).2 (balancePhase1 hav cfg clusters).1
    (balancePhase1_sizes hav cfg clusters hmax hI)
    (fun bal a _ hacc => redistributeStep_sizes hav cfg bal a hacc)

/-- Inserting into the label grouping preserves non-emptiness of every
group. -/
theorem insertLabel_nonempty (lab : ℕ) (a : AttrDict) :
    ∀ (acc : List (ℕ × List AttrDict)), (∀ g ∈ acc, g.2 ≠ []) →
      ∀ g ∈ insertLabel acc lab a, g.2 ≠ [] := by
  intro acc
  induction acc with
  | nil =>
    intro _ g hg
    rcases List.mem_singleton.mp hg with rfl
    simp
  | cons g0 t ih =>
    intro h g hg
    unfold insertLabel at hg
    by_cases he : g0.1 = lab
    · rw [if_pos he] at hg
      rcases List.mem_cons.mp hg with rfl | h2
      · simp
      · exact h g (List.mem_cons_of_mem _ h2)
    · rw [if_neg he] at hg
      rcases List.mem_cons.mp hg with rfl | h2
      · exact h g (List.mem_cons_self _ _)
      · exact ih (fun g' hg' => h g' (List.mem_cons_of_mem _ hg')) g h2

/-- Every label group is non-empty. -/
theorem groupByLabels_nonempty (labels : List ℕ) (attrs : List AttrDict) :
    ∀ g ∈ groupByLabels labels attrs, g.2 ≠ [] := by
  unfold groupByLabels
  exact foldl_invariant _
    (fun (acc : List (ℕ × List AttrDict)) => ∀ g ∈ acc, g.2 ≠ [])
    (labels.zip attrs) []
    (by intro g hg; cases hg)
    (fun acc p _ h => insertLabel_nonempty p.1 p.2 acc h)

/-- The clusters built from the KMeans label grouping are non-empty, and
their stored balance flag certifies the hard-coded `≤ 6` size bound. -/
theorem labelledClusters_inv (hav : Hav) (labels : List ℕ) (attrs : List AttrDict) :
    ∀ c ∈ labelledClusters hav labels attrs,
      c.attractions ≠ [] ∧ (c.is_balanced = true → c.attractions.length ≤ 6) := by
  intro c hc
  unfold labelledClusters at hc
  rcases List.mem_map.mp hc with ⟨g, hg, rfl⟩
  have hne := groupByLabels_nonempty labels attrs g hg
  rw [create_cluster_attractions]
  refine ⟨hne, fun hb => ?_⟩
  cases hG : g.2 with
  | nil => exact absurd hG hne
  | cons b bs =>
    rw [hG] at hb
    exact (create_cluster_balanced_size hav g.1 b bs hb).2

/-- Inversion for `_weighted_clustering`: whenever it returns (KMeans does
not raise on a non-finite similarity matrix or an empty sample), its result
is exactly the label grouping turned into clusters. -/
theorem weighted_clustering_ok (hav rd : Hav) (labels : List ℕ)
    (attrs : List AttrDict) (init : List GeoCluster)
    (h : weighted_clustering hav rd labels attrs = Except.ok init) :
    init = labelledClusters hav labels attrs := by
  cases attrs with
  | nil =>
    simp only [weighted_clustering] at h
    exact Except.noConfusion h
  | cons a rest =>
    cases rest with
    | nil =>
      simp only [weighted_clustering] at h
      exact (Except.ok.inj h).symm
    | cons b rest2 =>
      simp only [weighted_clustering] at h
      split at h
      · exact Except.noConfusion h
      · exact (Except.ok.inj h).symm

/-- The visiting-order pass never changes a cluster's member list. -/
theorem optimize_cluster_order_attractions (hav rd : Hav) (c : GeoCluster) :
    (optimize_cluster_order hav rd c).attractions = c.attractions := by
  unfold optimize_cluster_order
  split <;> rfl

/-- C1 counterexample: four valid candidates `threeNearOne` (count
4 ≥ MIN_PER_CLUSTER = 2) — three coincident equator points and one about
55.5 km away, so the distance matrix has positive maximum, the
`dist_penalty` normalisation is finite, and KMeans runs.  For any trip of
at least two days `n_clusters = min(target_clusters, 4 // 2) = 2`, and the
similarity matrix has exactly two distinct rows (three identical rows for
the coincident triple, one for the far point), so `[0,0,0,1]` and
`[1,1,1,0]` are the only labellings `KMeans.fit_predict` can return; under
either, `create_balanced_clusters` with the default configuration succeeds
and emits the cluster sizes `[3, 1]`: a singleton cluster is emitted — the
balancing pass keeps an unbalanced cluster unchanged whenever it is
neither oversize nor over-radius — so the claimed lower bound
`MIN_PER_CLUSTER` fails. -/
theorem c1_counterexample :
    fourPipeline.map (fun l => l.map (fun c => c.attractions.length)) =
      Except.ok [3, 1] ∧
    fourPipelineB.map (fun l => l.map (fun c => c.attractions.length)) =
      Except.ok [3, 1] := by
  constructor <;>
  norm_num [fourPipeline, fourPipelineB, create_balanced_clusters,
    create_single_cluster, weighted_clustering, labelledClusters, matrixMax,
    groupByLabels, insertLabel, optimize_cluster_balance, balancePhase1,
    redistributeStep, optimize_visiting_order, optimize_cluster_order,
    cfgDefault, threeNearOne, testAttr, eqKmHav, create_cluster,
    recalculate_metrics, calc_travel_metrics, sumVisit, sumPear, allPairs,
    havOf, check_balance, get_region_name, distance_matrix, solve_tsp_greedy,
    tspGo, selectNearest, tour_distance, Except.map, List.range', List.erase,
    List.getD, Nat.min_def, Nat.max_def, List.replicate_succ,
    List.replicate_zero, sup_eq_max, inf_eq_min, max_def, min_def]

/-- C1 (amended): whenever at least `MIN_PER_CLUSTER` valid candidates reach
the clustering stage (and `MAX_PER_CLUSTER ≥ 1`), every cluster emitted by
`create_balanced_clusters` has between 1 and
`max(MAX_PER_CLUSTER, 6)` attractions — the upper bound holds (and is at
most `MAX_PER_CLUSTER + 2` for the configurations the planner uses,
`MAX_PER_CLUSTER ≥ 4`), but the claimed lower bound `MIN_PER_CLUSTER` does
not: singleton clusters can be emitted, as the counterexample shows. -/
theorem c1_size_bounds (hav rd : Hav) (cfg : ClustererConfig) (labels : List ℕ)
    (top : List AttrDict) (out : List GeoCluster)
    (hmax : 1 ≤ cfg.max_attractions_per_cluster)
    (hmin : cfg.min_attractions_per_cluster ≤
      ((top.take 30).filter (fun a => a.latitude.isSome && a.longitude.isSome)).length)
    (hout : create_balanced_clusters hav rd cfg labels top = Except.ok out) :
    ∀ c ∈ out,
      1 ≤ c.attractions.length ∧
      c.attractions.length ≤ max cfg.max_attractions_per_cluster 6 := by
  intro c hc
  cases top with
  | nil =>
    simp only [create_balanced_clusters] at hout
    injection hout with h
    subst h
    cases hc
  | cons t0 ts =>
    simp only [create_balanced_clusters] at hout
    rw [if_neg (Nat.not_lt.mpr hmin)] at hout
    cases hw : weighted_clustering hav rd labels
        (((t0 :: ts).take 30).filter
          (fun a => a.latitude.isSome && a.longitude.isSome)) with
    | error e =>
      simp only [hw] at hout
      exact Except.noConfusion hout
    | ok initial =>
      simp only [hw] at hout
      injection hout with h
      subst h
      have hinit := weighted_clustering_ok hav rd labels _ initial hw
      subst hinit
      unfold optimize_visiting_order at hc
      rcases List.mem_map.mp hc with ⟨c0, hc0, rfl⟩
      rw [optimize_cluster_order_attractions]
      exact optimize_cluster_balance_sizes hav cfg _ hmax
        (labelledClusters_inv hav labels _) c0 hc0

/-- Evaluation of the `[0,0,0,1]` pipeline, stated through `Except.toOption`
to avoid transcribing the emitted cluster records literally. -/
theorem fourPipeline_eval :
    create_balanced_clusters eqKmHav eqKmHav cfgDefault [0, 0, 0, 1] threeNearOne =
      Except.ok (fourPipeline.toOption.getD []) := by
  norm_num [fourPipeline, create_balanced_clusters, create_single_cluster,
    weighted_clustering, labelledClusters, matrixMax, groupByLabels, insertLabel,
    optimize_cluster_balance, balancePhase1, redistributeStep,
    optimize_visiting_order, optimize_cluster_order, cfgDefault, threeNearOne,
    testAttr, eqKmHav, create_cluster, recalculate_metrics, calc_travel_metrics,
    sumVisit, sumPear, allPairs, havOf, check_balance, get_region_name,
    distance_matrix, solve_tsp_greedy, tspGo, selectNearest, tour_distance,
    Except.toOption, Option.getD, List.range', List.erase, List.getD,
    Nat.min_def, Nat.max_def, List.replicate_succ, List.replicate_zero,
    sup_eq_max, inf_eq_min, max_def, min_def]

theorem c1_witness :
    (1 ≤ cfgDefault.max_attractions_per_cluster ∧
     cfgDefault.min_attractions_per_cluster ≤
      ((threeNearOne.take 30).filter
        (fun a => a.latitude.isSome && a.longitude.isSome)).length ∧
     create_balanced_clusters eqKmHav eqKmHav cfgDefault [0, 0, 0, 1] threeNearOne =
       Except.ok (fourPipeline.toOption.getD [])) ∧
    ∀ c ∈ fourPipeline.toOption.getD [],
      1 ≤ c.attractions.length ∧
      c.attractions.length ≤ max cfgDefault.max_attractions_per_cluster 6 :=
  ⟨⟨by norm_num [cfgDefault],
    by norm_num [cfgDefault, threeNearOne, testAttr],
    fourPipeline_eval⟩,
   c1_size_bounds eqKmHav eqKmHav cfgDefault [0, 0, 0, 1] threeNearOne
     (fourPipeline.toOption.getD [])
     (by norm_num [cfgDefault]) (by norm_num [cfgDefault, threeNearOne, testAttr])
     fourPipeline_eval⟩
